import Mathlib

/-!
Shallow embedding of the AWS-Cost-Optimizer server core
(`src/server/app`): the data model (`app/models/contracts.py`), the
scoring service (`app/scoring/service.py`), the scanner's per-object
rules (`app/scanner/service.py`), the execution service
(`app/executor/service.py`), the rollback service
(`app/executor/rollback.py`), the run store's audit operations
(`app/state/store.py`), and the rollback route glue
(`app/api/routes/optimizer.py`).

Conventions of the embedding:
* Python `datetime` values are modelled as integer Unix seconds (ℤ);
  `timedelta.days` is floor division by 86400.
* Python `float` money/size arithmetic is modelled over ℚ; Python's
  `round` (banker's rounding) is `pyRound`.
* Fresh UUIDs (`uuid.uuid4()`) are opaque to every verified property and
  are modelled as `""`.
* Cloud (S3) calls are modelled by an oracle giving each call's outcome,
  plus an explicit trace of the verbs that were invoked.
* Python dict payloads whose contents no property inspects
  (`pre_change_state` / `post_change_state`) are modelled as string
  association lists; `{**a, **b}` is list append (later entries win on
  lookup).
-/

/-- `RiskLevel` enum from `app/models/contracts.py`. -/
inductive RiskLevel where
  | low
  | medium
  | high
  deriving DecidableEq, Repr

/-- `.value` of a `RiskLevel` member. -/
def RiskLevel.val : RiskLevel → String
  | .low => "low"
  | .medium => "medium"
  | .high => "high"

/-- `RecommendationType` enum from `app/models/contracts.py`. -/
inductive RecommendationType where
  | change_storage_class
  | add_lifecycle_policy
  | delete_incomplete_upload
  | delete_stale_object
  deriving DecidableEq, Repr

/-- `ExecutionMode` enum from `app/models/contracts.py`. -/
inductive ExecutionMode where
  | dry_run
  | safe
  | standard
  | full
  deriving DecidableEq, Repr

/-- `.value` of an `ExecutionMode` member. -/
def ExecutionMode.val : ExecutionMode → String
  | .dry_run => "dry_run"
  | .safe => "safe"
  | .standard => "standard"
  | .full => "full"

/-- `RunStatus` enum from `app/models/contracts.py`. -/
inductive RunStatus where
  | scanned
  | scored
  | executed
  deriving DecidableEq, Repr

/-- `ExecutionActionStatus` enum from `app/models/contracts.py`. -/
inductive ExecutionActionStatus where
  | dry_run
  | executed
  | skipped
  | blocked
  | failed
  deriving DecidableEq, Repr

/-- `RollbackStatus` enum from `app/models/contracts.py`. -/
inductive RollbackStatus where
  | pending
  | not_applicable
  | rolled_back
  | failed
  deriving DecidableEq, Repr

/-- `RollbackActionStatus` enum from `app/models/contracts.py`. -/
inductive RollbackActionStatus where
  | dry_run
  | rolled_back
  | skipped
  | failed
  deriving DecidableEq, Repr

/-- `Recommendation` model from `app/models/contracts.py`
(`estimated_monthly_savings : float` over ℚ, datetimes as seconds). -/
structure Recommendation where
  id : String
  bucket : String
  key : Option String := none
  recommendation_type : RecommendationType
  risk_level : RiskLevel
  reason : String
  recommended_action : String
  estimated_monthly_savings : ℚ
  size_bytes : ℤ
  storage_class : Option String := none
  last_modified : Option ℤ := none
  deriving DecidableEq, Repr

/-- `RiskFactorScores` model from `app/models/contracts.py`. -/
structure RiskFactorScores where
  reversibility : ℤ
  data_loss_risk : ℤ
  age_confidence : ℤ
  size_impact : ℤ
  access_confidence : ℤ
  deriving DecidableEq, Repr

/-- `RiskScore` model from `app/models/contracts.py`. -/
structure RiskScore where
  recommendation_id : String
  risk_score : ℤ
  confidence_score : ℤ
  impact_score : ℤ
  risk_level : RiskLevel
  requires_approval : Bool
  safe_to_automate : Bool
  execution_recommendation : String
  factors : List String := []
  factor_scores : RiskFactorScores
  deriving DecidableEq, Repr

/-- `SavingsEstimate` model from `app/models/contracts.py`. The
presentational `assumptions` strings (float formatting) are omitted; no
verified property reads them. -/
structure SavingsEstimate where
  recommendation_id : String
  current_monthly_cost : ℚ
  projected_monthly_cost : ℚ
  monthly_savings : ℚ
  transition_cost : ℚ
  minimum_duration_risk : ℚ
  net_first_month : ℚ
  net_annual_savings : ℚ
  break_even_days : Option ℤ := none
  estimate_confidence : String
  deriving DecidableEq, Repr

/-- `SavingsSummary` model from `app/models/contracts.py`. -/
structure SavingsSummary where
  total_monthly_savings : ℚ
  total_annual_savings : ℚ
  total_transition_costs : ℚ
  net_first_month : ℚ
  high_confidence_count : ℕ
  medium_confidence_count : ℕ
  low_confidence_count : ℕ
  deriving DecidableEq, Repr

/-- `ExecuteRequest` model from `app/models/contracts.py`. -/
structure ExecuteRequest where
  run_id : String
  mode : ExecutionMode := .dry_run
  dry_run : Option Bool := none
  max_actions : ℕ := 100
  deriving DecidableEq, Repr

/-- `ExecutionActionResult` model from `app/models/contracts.py`. -/
structure ExecutionActionResult where
  audit_id : String
  recommendation_id : String
  recommendation_type : RecommendationType
  bucket : String
  key : Option String := none
  risk_level : RiskLevel
  requires_approval : Bool
  status : ExecutionActionStatus
  message : String
  permitted : Bool
  required_permissions : List String := []
  missing_permissions : List String := []
  simulated : Bool := false
  pre_change_state : List (String × String) := []
  post_change_state : Option (List (String × String)) := none
  rollback_available : Bool := false
  rollback_status : RollbackStatus := .not_applicable
  deriving DecidableEq, Repr

/-- `ExecuteResponse` model from `app/models/contracts.py`. -/
structure ExecuteResponse where
  execution_id : String
  run_id : String
  status : RunStatus
  mode : ExecutionMode
  dry_run : Bool
  eligible : ℕ
  executed : ℕ
  skipped : ℕ
  blocked : ℕ
  failed : ℕ
  action_results : List ExecutionActionResult := []
  executed_at : ℤ
  deriving DecidableEq, Repr

/-- Python `round` with no digits argument: round half to even
(banker's rounding), on the exact rational value. -/
def pyRound (q : ℚ) : ℤ :=
  let f : ℤ := ⌊q⌋
  let frac : ℚ := q - (f : ℚ)
  if frac < 1/2 then f
  else if 1/2 < frac then f + 1
  else if f % 2 = 0 then f else f + 1

/-- Python `round(q, 4)`: banker's rounding at four decimal places. -/
def pyRound4 (q : ℚ) : ℚ :=
  (pyRound (q * 10000) : ℚ) / 10000

/-- Python `int(q)` on a nonnegative value: truncation toward zero. -/
def pyTrunc (q : ℚ) : ℤ :=
  if 0 ≤ q then ⌊q⌋ else -⌊-q⌋

/-- Whether the second character list starts the first. -/
def charsStartWith : List Char → List Char → Bool
  | _, [] => true
  | [], _ :: _ => false
  | c :: cs, d :: ds => c == d && charsStartWith cs ds

/-- Whether the second character list occurs inside the first. -/
def charsContain : List Char → List Char → Bool
  | [], needle => needle.isEmpty
  | c :: t, needle => charsStartWith (c :: t) needle || charsContain t needle

/-- Python `needle in haystack` on strings (substring containment). -/
def pyContains (haystack needle : String) : Bool :=
  charsContain haystack.data needle.data

/-- Python `str.lower()` (ASCII suffices for the configuration values
and reasons this program compares). -/
def pyLower (s : String) : String :=
  ⟨s.data.map Char.toLower⟩

/-- Python `str.upper()` (ASCII suffices here). -/
def pyUpper (s : String) : String :=
  ⟨s.data.map Char.toUpper⟩

/-- Python `str.strip()`. -/
def pyStrip (s : String) : String :=
  ⟨((s.data.dropWhile Char.isWhitespace).reverse.dropWhile
      Char.isWhitespace).reverse⟩

/-- Python `a or b` for an optional string against a fallback: `None`
and `""` are falsy. -/
def pyOrStr (a : Option String) (b : String) : String :=
  match a with
  | some s => if s = "" then b else s
  | none => b

/-! ## ScoringService (`src/server/app/scoring/service.py`)

`datetime.now(timezone.utc)` in `_age_confidence` is modelled by the
explicit parameter `now` (Unix seconds); everything else is a pure
function of the recommendation. -/

namespace ScoringService

/-- `ScoringResult` dataclass. -/
structure ScoringResult where
  scores : List RiskScore
  savings_details : List SavingsEstimate
  savings_summary : SavingsSummary
  deriving DecidableEq, Repr

/-- `WEIGHTS` class dict. -/
def WEIGHTS (k : String) : ℤ :=
  if k = "reversibility" then 30
  else if k = "data_loss_risk" then 25
  else if k = "age_confidence" then 20
  else if k = "size_impact" then 15
  else if k = "access_confidence" then 10
  else 0

/-- `REVERSIBILITY_SCORES` class dict, looked up with default 50. -/
def REVERSIBILITY_SCORES : RecommendationType → Option ℤ
  | .change_storage_class => some 90
  | .add_lifecycle_policy => some 100
  | .delete_incomplete_upload => some 100
  | .delete_stale_object => some 0

/-- `STORAGE_PRICING` class dict ($ per GB-month). -/
def STORAGE_PRICING (c : String) : Option ℚ :=
  if c = "STANDARD" then some (23/1000)
  else if c = "INTELLIGENT_TIERING" then some (23/1000)
  else if c = "STANDARD_IA" then some (125/10000)
  else if c = "ONEZONE_IA" then some (1/100)
  else if c = "GLACIER_IR" then some (4/1000)
  else if c = "GLACIER" then some (36/10000)
  else if c = "DEEP_ARCHIVE" then some (99/100000)
  else none

/-- `TRANSITION_COSTS` class dict. -/
def TRANSITION_COSTS (c : String) : Option ℚ :=
  if c = "INTELLIGENT_TIERING" then some (25/10000)
  else if c = "STANDARD_IA" then some (1/100)
  else if c = "ONEZONE_IA" then some (1/100)
  else if c = "GLACIER_IR" then some (2/100)
  else if c = "GLACIER" then some (3/100)
  else if c = "DEEP_ARCHIVE" then some (5/100)
  else none

/-- `MIN_STORAGE_DURATION` class dict (days). -/
def MIN_STORAGE_DURATION (c : String) : Option ℤ :=
  if c = "STANDARD_IA" then some 30
  else if c = "ONEZONE_IA" then some 30
  else if c = "GLACIER_IR" then some 90
  else if c = "GLACIER" then some 90
  else if c = "DEEP_ARCHIVE" then some 180
  else none

/-- `_parse_target_class`. -/
def parseTargetClass (action : String) : String :=
  let normalized := (pyLower action).replace "-" "_"
  if pyContains normalized "deep_archive" then "DEEP_ARCHIVE"
  else if pyContains normalized "glacier_ir" then "GLACIER_IR"
  else if pyContains normalized "glacier" then "GLACIER"
  else if pyContains normalized "intelligent" then "INTELLIGENT_TIERING"
  else if pyContains normalized "onezone" then "ONEZONE_IA"
  else if pyContains normalized "standard_ia" then "STANDARD_IA"
  else "GLACIER_IR"

/-- `_data_loss_risk`. -/
def dataLossRisk (recommendation : Recommendation) : ℤ :=
  if recommendation.recommendation_type = .delete_stale_object then 100
  else if recommendation.recommendation_type = .delete_incomplete_upload then 10
  else if recommendation.recommendation_type = .change_storage_class then 5
  else 0

/-- `_age_confidence`; `now` is the wall clock the code reads via
`datetime.now(timezone.utc)`.  `timedelta.days` floors. -/
def ageConfidence (recommendation : Recommendation) (now : ℤ) : ℤ :=
  match recommendation.last_modified with
  | none => 35
  | some lm =>
    let days_old := Int.fdiv (now - lm) 86400
    if days_old ≥ 365 then 95
    else if days_old ≥ 180 then 80
    else if days_old ≥ 90 then 65
    else if days_old ≥ 30 then 45
    else 25

/-- `_size_impact`. -/
def sizeImpact (recommendation : Recommendation) : ℤ :=
  let size_gb : ℚ := (recommendation.size_bytes : ℚ) / (1024 ^ 3)
  if size_gb ≥ 100 then 100
  else if size_gb ≥ 10 then 80
  else if size_gb ≥ 1 then 60
  else if size_gb ≥ 1/10 then 35
  else 15

/-- `_access_confidence`. -/
def accessConfidence (recommendation : Recommendation) : ℤ :=
  let base : ℤ := if recommendation.last_modified.isSome then 50 else 35
  let reason := pyLower recommendation.reason
  let base :=
    if pyContains reason "infrequent" || pyContains reason "cold"
        || pyContains reason "stale" then
      base + 10
    else base
  min 100 base

/-- `_calculate_factor_scores`. -/
def calculateFactorScores (recommendation : Recommendation) (now : ℤ) :
    RiskFactorScores × List String :=
  let reversibility :=
    (REVERSIBILITY_SCORES recommendation.recommendation_type).getD 50
  let data_loss_risk := dataLossRisk recommendation
  let age_confidence := ageConfidence recommendation now
  let size_impact := sizeImpact recommendation
  let access_confidence := accessConfidence recommendation
  let factors : List String :=
    [if reversibility ≥ 80 then "Action is reversible."
     else if reversibility ≥ 50 then "Action is partially reversible."
     else "Action is irreversible.",
     if data_loss_risk ≥ 70 then "High data loss risk."
     else if data_loss_risk ≥ 35 then "Moderate data loss risk."
     else "Low data loss risk.",
     if age_confidence ≥ 80 then "Object age supports high confidence."
     else if age_confidence ≥ 50 then "Object age provides moderate confidence."
     else "Object age data is weak.",
     if size_impact ≥ 70 then "Large data size increases blast radius."
     else if size_impact ≥ 40 then "Medium data size impact."
     else "Small data size impact.",
     if access_confidence ≥ 70 then "Access pattern signal is strong."
     else "Access pattern signal is limited."]
  (⟨reversibility, data_loss_risk, age_confidence, size_impact,
      access_confidence⟩,
   factors)

/-- `_calculate_weighted_risk`. -/
def calculateWeightedRisk (factors : RiskFactorScores) : ℤ :=
  let weighted : ℚ :=
    ((100 - factors.reversibility : ℤ) : ℚ) * (WEIGHTS "reversibility" : ℚ) / 100
      + (factors.data_loss_risk : ℚ) * (WEIGHTS "data_loss_risk" : ℚ) / 100
      + ((100 - factors.age_confidence : ℤ) : ℚ) * (WEIGHTS "age_confidence" : ℚ) / 100
      + (factors.size_impact : ℚ) * (WEIGHTS "size_impact" : ℚ) / 100
      + ((100 - factors.access_confidence : ℤ) : ℚ) * (WEIGHTS "access_confidence" : ℚ) / 100
  max 0 (min 100 (pyRound weighted))

/-- `_calculate_confidence`. -/
def calculateConfidence (factors : RiskFactorScores) : ℤ :=
  let confidence := pyRound
    (((factors.reversibility + factors.age_confidence
        + factors.access_confidence : ℤ) : ℚ) / 3)
  max 0 (min 100 confidence)

/-- `_calculate_impact_score`. -/
def calculateImpactScore (monthly_savings : ℚ) : ℤ :=
  if monthly_savings ≥ 100 then 100
  else if monthly_savings ≥ 50 then 80
  else if monthly_savings ≥ 10 then 60
  else if monthly_savings ≥ 1 then 40
  else 20

/-- `_risk_level_from_score`. -/
def riskLevelFromScore (risk_score : ℤ) : RiskLevel :=
  if risk_score < 30 then .low
  else if risk_score < 60 then .medium
  else .high

/-- `_execution_recommendation`. -/
def executionRecommendation (risk_score confidence_score : ℤ)
    (requires_approval safe_to_automate : Bool) : String :=
  if safe_to_automate then "Safe to automate."
  else if requires_approval then
    if risk_score ≥ 70 then "Manual review required before execution."
    else "Explicit approval required before execution."
  else if confidence_score < 50 then
    "Collect more usage evidence before execution."
  else "Include in validated execution batch."

/-- `_storage_class_savings` (the `assumptions` strings are
presentational and omitted). -/
def storageClassSavings (recommendation : Recommendation) : SavingsEstimate :=
  let size_gb : ℚ := (recommendation.size_bytes : ℚ) / (1024 ^ 3)
  let current_class := pyUpper (recommendation.storage_class.getD "STANDARD")
  let target_class := parseTargetClass recommendation.recommended_action
  let current_rate := (STORAGE_PRICING current_class).getD (23/1000)
  let target_rate := (STORAGE_PRICING target_class).getD (4/1000)
  let current_monthly := size_gb * current_rate
  let projected_monthly := size_gb * target_rate
  let monthly_savings := max 0 (current_monthly - projected_monthly)
  let transition_rate := (TRANSITION_COSTS target_class).getD (2/100)
  let transition_cost := transition_rate / 1000
  let min_days := MIN_STORAGE_DURATION target_class
  let minimum_duration_risk :=
    match min_days with
    | some d => if d ≠ 0 then projected_monthly * ((d : ℚ) / 30) else 0
    | none => 0
  let net_first_month := monthly_savings - transition_cost
  let net_annual := monthly_savings * 12 - transition_cost
  let break_even_days : Option ℤ :=
    if monthly_savings > 0 then some (pyTrunc (transition_cost / monthly_savings * 30))
    else none
  let confidence :=
    if recommendation.size_bytes = 0 then "low"
    else if recommendation.last_modified.isSome ∧ recommendation.size_bytes > 0 then
      "high"
    else "medium"
  { recommendation_id := recommendation.id
    current_monthly_cost := current_monthly
    projected_monthly_cost := projected_monthly
    monthly_savings := monthly_savings
    transition_cost := transition_cost
    minimum_duration_risk := minimum_duration_risk
    net_first_month := net_first_month
    net_annual_savings := net_annual
    break_even_days := break_even_days
    estimate_confidence := confidence }

/-- `_lifecycle_savings`. -/
def lifecycleSavings (recommendation : Recommendation) : SavingsEstimate :=
  let size_gb : ℚ := (recommendation.size_bytes : ℚ) / (1024 ^ 3)
  let baseline :=
    if recommendation.estimated_monthly_savings > 0 then
      recommendation.estimated_monthly_savings
    else 1/2
  let std := (23/1000 : ℚ)
  let gir := (4/1000 : ℚ)
  let (current_monthly, projected_monthly, monthly_savings) :=
    if size_gb > 0 then
      let current_monthly := size_gb * std
      let projected_monthly := current_monthly * (7/10) + size_gb * gir * (3/10)
      (current_monthly, projected_monthly, max 0 (current_monthly - projected_monthly))
    else
      let current_monthly := baseline / (3/10)
      let monthly_savings := baseline
      (current_monthly, max 0 (current_monthly - monthly_savings), monthly_savings)
  { recommendation_id := recommendation.id
    current_monthly_cost := current_monthly
    projected_monthly_cost := projected_monthly
    monthly_savings := monthly_savings
    transition_cost := 0
    minimum_duration_risk := 0
    net_first_month := monthly_savings
    net_annual_savings := monthly_savings * 12
    break_even_days := some 0
    estimate_confidence := "low" }

/-- `_multipart_savings`. -/
def multipartSavings (recommendation : Recommendation) : SavingsEstimate :=
  let current_monthly :=
    if recommendation.size_bytes > 0 then
      ((recommendation.size_bytes : ℚ) / (1024 ^ 3)) * (23/1000)
    else
      max (1/100) recommendation.estimated_monthly_savings
  { recommendation_id := recommendation.id
    current_monthly_cost := current_monthly
    projected_monthly_cost := 0
    monthly_savings := current_monthly
    transition_cost := 0
    minimum_duration_risk := 0
    net_first_month := current_monthly
    net_annual_savings := current_monthly * 12
    break_even_days := some 0
    estimate_confidence := if recommendation.size_bytes > 0 then "medium" else "low" }

/-- `_deletion_savings`. -/
def deletionSavings (recommendation : Recommendation) : SavingsEstimate :=
  let size_gb : ℚ := (recommendation.size_bytes : ℚ) / (1024 ^ 3)
  let storage_class := pyUpper (recommendation.storage_class.getD "STANDARD")
  let rate := (STORAGE_PRICING storage_class).getD (23/1000)
  let current_monthly₀ := size_gb * rate
  let current_monthly :=
    if current_monthly₀ ≤ 0 then recommendation.estimated_monthly_savings
    else current_monthly₀
  { recommendation_id := recommendation.id
    current_monthly_cost := current_monthly
    projected_monthly_cost := 0
    monthly_savings := max 0 current_monthly
    transition_cost := 0
    minimum_duration_risk := 0
    net_first_month := max 0 current_monthly
    net_annual_savings := max 0 current_monthly * 12
    break_even_days := some 0
    estimate_confidence := if recommendation.size_bytes > 0 then "high" else "medium" }

/-- `_fallback_savings`. -/
def fallbackSavings (recommendation : Recommendation) : SavingsEstimate :=
  let monthly := recommendation.estimated_monthly_savings
  { recommendation_id := recommendation.id
    current_monthly_cost := monthly
    projected_monthly_cost := 0
    monthly_savings := monthly
    transition_cost := 0
    minimum_duration_risk := 0
    net_first_month := monthly
    net_annual_savings := monthly * 12
    break_even_days := some 0
    estimate_confidence := "low" }

/-- `_calculate_savings`. With exactly four enum members the final
fallback branch is unreachable but kept for faithfulness. -/
def calculateSavings (recommendation : Recommendation) : SavingsEstimate :=
  if recommendation.recommendation_type = .change_storage_class then
    storageClassSavings recommendation
  else if recommendation.recommendation_type = .add_lifecycle_policy then
    lifecycleSavings recommendation
  else if recommendation.recommendation_type = .delete_incomplete_upload then
    multipartSavings recommendation
  else if recommendation.recommendation_type = .delete_stale_object then
    deletionSavings recommendation
  else fallbackSavings recommendation

/-- The per-recommendation body of `ScoringService.score`: savings,
factor scores, the weighted triple, the two decision booleans, and the
prose label, exactly as the loop in `score` computes them. -/
def scoreOne (recommendation : Recommendation) (now : ℤ) :
    RiskScore × SavingsEstimate :=
  let savings := calculateSavings recommendation
  let (factor_scores, factor_messages) := calculateFactorScores recommendation now
  let risk_score := calculateWeightedRisk factor_scores
  let confidence_score := calculateConfidence factor_scores
  let impact_score := calculateImpactScore savings.monthly_savings
  let risk_level := riskLevelFromScore risk_score
  let requires_approval : Bool :=
    decide (risk_score ≥ 55)
      || decide (recommendation.recommendation_type = .delete_stale_object)
      || decide (recommendation.size_bytes ≥ 10 * 1024 * 1024 * 1024)
  let safe_to_automate : Bool :=
    decide (risk_score < 30) && decide (confidence_score ≥ 70)
      && decide (recommendation.recommendation_type ≠ .delete_stale_object)
  ({ recommendation_id := recommendation.id
     risk_score := risk_score
     confidence_score := confidence_score
     impact_score := impact_score
     risk_level := risk_level
     requires_approval := requires_approval
     safe_to_automate := safe_to_automate
     execution_recommendation :=
       executionRecommendation risk_score confidence_score
         requires_approval safe_to_automate
     factors := factor_messages
     factor_scores := factor_scores },
   savings)

/-- `_aggregate_savings`. -/
def aggregateSavings (estimates : List SavingsEstimate) : SavingsSummary :=
  { total_monthly_savings := (estimates.map (·.monthly_savings)).sum
    total_annual_savings := (estimates.map (·.net_annual_savings)).sum
    total_transition_costs := (estimates.map (·.transition_cost)).sum
    net_first_month := (estimates.map (·.net_first_month)).sum
    high_confidence_count :=
      (estimates.filter (·.estimate_confidence = "high")).length
    medium_confidence_count :=
      (estimates.filter (·.estimate_confidence = "medium")).length
    low_confidence_count :=
      (estimates.filter (·.estimate_confidence = "low")).length }

/-- `ScoringService.score`. -/
def score (recommendations : List Recommendation) (now : ℤ) : ScoringResult :=
  let pairs := recommendations.map (scoreOne · now)
  let scores := pairs.map (·.1)
  let savings_details := pairs.map (·.2)
  { scores := scores
    savings_details := savings_details
    savings_summary := aggregateSavings savings_details }

end ScoringService

/-! ## ScannerService (`src/server/app/scanner/service.py`)

Only the per-object rules of `_scan_objects` are embedded (the bucket
and multipart analyzers are separate S3-driven loops no claim touches).
A listed object is the relevant slice of one `Contents` entry; the
freshly stamped `uuid.uuid4()` ids are opaque to every property and are
modelled as `""`. -/

namespace ScannerService

/-- Module constant `_COLD_DAYS`. -/
def COLD_DAYS : ℤ := 90

/-- Module constant `_STALE_DAYS`. -/
def STALE_DAYS : ℤ := 365

/-- Module constant `_TARGET_CLASS`. -/
def TARGET_CLASS : String := "GLACIER_IR"

/-- Module constant `_STANDARD_PRICE` ($/GB/month). -/
def STANDARD_PRICE : ℚ := 23/1000

/-- Module constant `_GLACIER_IR_PRICE`. -/
def GLACIER_IR_PRICE : ℚ := 4/1000

/-- One entry of a `list_objects_v2` page, with the defaults
`obj.get("Size", 0)` and `obj.get("StorageClass", "STANDARD")` already
applied; `last_modified` in Unix seconds. -/
structure S3Object where
  key : String
  size : ℤ := 0
  storage_class : String := "STANDARD"
  last_modified : ℤ
  deriving DecidableEq, Repr

/-- The per-object body of `_scan_objects`: the stale-delete rule,
else the cold storage-class rule, else nothing. -/
def objectRecs (bucket : String) (now : ℤ) (obj : S3Object) :
    List Recommendation :=
  let age_days := Int.fdiv (now - obj.last_modified) 86400
  let size_gb : ℚ := (obj.size : ℚ) / (1024 ^ 3)
  if age_days ≥ STALE_DAYS then
    [{ id := ""
       bucket := bucket
       key := some obj.key
       recommendation_type := .delete_stale_object
       risk_level := .high
       reason := s!"Object has not been modified in {age_days} days ({Int.fdiv age_days 365} year(s))."
       recommended_action := "Delete stale object"
       estimated_monthly_savings := pyRound4 (STANDARD_PRICE * size_gb)
       size_bytes := obj.size
       storage_class := some obj.storage_class
       last_modified := some obj.last_modified }]
  else if age_days ≥ COLD_DAYS ∧ obj.storage_class = "STANDARD" then
    [{ id := ""
       bucket := bucket
       key := some obj.key
       recommendation_type := .change_storage_class
       risk_level := .medium
       reason := s!"Object has been in STANDARD storage for {age_days} days without modification."
       recommended_action := s!"Transition to {TARGET_CLASS}"
       estimated_monthly_savings :=
         pyRound4 ((STANDARD_PRICE - GLACIER_IR_PRICE) * size_gb)
       size_bytes := obj.size
       storage_class := some obj.storage_class
       last_modified := some obj.last_modified }]
  else []

/-- `_scan_objects` over the flattened listing: the `count`/`break`
bookkeeping processes exactly the first `max_objects` objects, each
through the per-object rules, in order. -/
def scanObjects (bucket : String) (objs : List S3Object)
    (max_objects : ℕ) (now : ℤ) : List Recommendation :=
  (objs.take max_objects).flatMap (objectRecs bucket now)

end ScannerService

/-! ## ExecutionService (`src/server/app/executor/service.py`)

S3 is modelled by a `CloudEnv` oracle fixing, per action, whether the
cloud calls raise a `ClientError` (and with which code/message) and
which lifecycle rules a bucket currently has; `execute` additionally
returns the trace of S3 verbs it invoked.  `os.getenv` reads are an
explicit `OsEnv`.  The fresh `uuid.uuid4()` execution and audit ids are
opaque to every property and modelled as `""`. -/

/-- Python `f"{x}"` of an optional string (`None` prints as `"None"`). -/
def pyStr (o : Option String) : String := o.getD "None"

/-- Python `str.split()` with no separator: split on whitespace runs,
dropping empty pieces (auxiliary, over characters). -/
def wordsAux : List Char → List Char → List (List Char)
  | [], acc => if acc.isEmpty then [] else [acc.reverse]
  | c :: t, acc =>
    if c.isWhitespace then
      if acc.isEmpty then wordsAux t [] else acc.reverse :: wordsAux t []
    else wordsAux t (c :: acc)

/-- Python `str.split()` with no separator. -/
def pySplit (s : String) : List String :=
  (wordsAux s.data []).map (⟨·⟩)

/-- The S3 verbs `ExecutionService._execute_action` and
`RollbackService._rollback_action` can invoke. -/
inductive S3Verb where
  | copy_object (bucket : String) (key : Option String) (storage_class : String)
  | get_bucket_lifecycle_configuration (bucket : String)
  | put_bucket_lifecycle_configuration (bucket : String)
  | delete_bucket_lifecycle (bucket : String)
  | abort_multipart_upload (bucket : String) (key : Option String) (upload_id : String)
  | delete_object (bucket : String) (key : Option String)
  deriving DecidableEq, Repr

namespace ExecutionService

/-- Oracle for the cloud's behaviour during one call to `execute`:
`error r` is the `ClientError` `(code, message)` the S3 call(s) for
action `r` raise, if any; `existing_rules b` is bucket `b`'s current
lifecycle rule set (`none` models `NoSuchLifecycleConfiguration`),
rules kept as opaque rule-id strings. -/
structure CloudEnv where
  error : Recommendation → Option (String × String)
  existing_rules : String → Option (List String)

/-- The process environment `execute` reads through `os.getenv`
(`none` = variable unset). -/
structure OsEnv where
  allow_destructive_execution : Option String := none
  executor_granted_permissions : Option String := none

/-- The literal comparison on line 62:
`os.getenv("ALLOW_DESTRUCTIVE_EXECUTION", "false").lower() == "true"`. -/
def parseAllowDestructive (raw : String) : Bool :=
  pyLower raw == "true"

/-- `REVERSIBLE_ACTIONS` class set. -/
def REVERSIBLE_ACTIONS : List RecommendationType :=
  [.change_storage_class, .add_lifecycle_policy]

/-- `REQUIRED_PERMISSIONS` class dict. -/
def REQUIRED_PERMISSIONS : RecommendationType → Option (List String)
  | .change_storage_class => some ["s3:GetObject", "s3:PutObject"]
  | .add_lifecycle_policy =>
    some ["s3:GetLifecycleConfiguration", "s3:PutLifecycleConfiguration"]
  | .delete_incomplete_upload =>
    some ["s3:ListBucketMultipartUploads", "s3:AbortMultipartUpload"]
  | .delete_stale_object => some ["s3:GetObject", "s3:DeleteObject"]

/-- `_granted_permissions`: the comma-separated environment override or
its default, split, stripped, empties dropped (a Python set; membership
is all that is ever used of it). -/
def grantedPermissions (osEnv : OsEnv) : List String :=
  let raw := osEnv.executor_granted_permissions.getD
    (String.intercalate ","
      ["s3:GetObject", "s3:PutObject", "s3:GetLifecycleConfiguration",
       "s3:PutLifecycleConfiguration", "s3:ListBucketMultipartUploads",
       "s3:AbortMultipartUpload"])
  ((raw.splitOn ",").map pyStrip).filter (· ≠ "")

/-- `_resolve_mode`. -/
def resolveMode (request : ExecuteRequest) : ExecutionMode × Bool :=
  if request.mode = .dry_run then (.dry_run, true)
  else if request.dry_run = some true then (request.mode, true)
  else if request.dry_run = some false then (request.mode, false)
  else (request.mode, request.mode = .dry_run)

/-- `_is_mode_eligible`. -/
def isModeEligible (mode : ExecutionMode) (score : RiskScore) : Bool :=
  if mode = .dry_run then true
  else if mode = .safe then score.safe_to_automate
  else if mode = .standard then !score.requires_approval
  else true

/-- The dict comprehension
`{score.recommendation_id: score for score in scores}` (on duplicate
ids the later entry wins), looked up with `.get`. -/
def scoreById (scores : List RiskScore) (id : String) : Option RiskScore :=
  scores.foldl
    (fun acc score =>
      if score.recommendation_id == id then some score else acc)
    none

/-- `_capture_pre_change_state` (dict values stringified). -/
def capturePreChangeState (recommendation : Recommendation) :
    List (String × String) :=
  [("bucket", recommendation.bucket),
   ("key", pyStr recommendation.key),
   ("storage_class", pyStr recommendation.storage_class),
   ("size_bytes", toString recommendation.size_bytes),
   ("last_modified",
     match recommendation.last_modified with
     | some t => toString t
     | none => "None"),
   ("risk_level", recommendation.risk_level.val)]

/-- `_capture_post_change_state` (dict values stringified; the final
`"unknown"` fallback is unreachable with four enum members). -/
def capturePostChangeState (recommendation : Recommendation)
    (simulated : Bool) : List (String × String) :=
  match recommendation.recommendation_type with
  | .change_storage_class =>
    [("action", "change_storage_class"),
     ("target", recommendation.recommended_action),
     ("simulated", toString simulated)]
  | .add_lifecycle_policy =>
    [("action", "add_lifecycle_policy"),
     ("target", recommendation.recommended_action),
     ("simulated", toString simulated)]
  | .delete_incomplete_upload =>
    [("action", "delete_incomplete_upload"),
     ("target", pyStr recommendation.key),
     ("simulated", toString simulated)]
  | .delete_stale_object =>
    [("action", "delete_stale_object"),
     ("target", pyStr recommendation.key),
     ("simulated", toString simulated)]

/-- `_result`. -/
def result (audit_id : String) (recommendation : Recommendation)
    (score : Option RiskScore) (status : ExecutionActionStatus)
    (message : String) (permitted : Bool)
    (required_permissions missing_permissions : List String)
    (simulated : Bool) (pre_change_state : List (String × String))
    (post_change_state : Option (List (String × String))) :
    ExecutionActionResult :=
  let requires_approval :=
    match score with
    | some s => s.requires_approval
    | none => true
  let risk_level :=
    match score with
    | some s => s.risk_level
    | none => recommendation.risk_level
  let rollback_available :=
    decide (status = .executed)
      && REVERSIBLE_ACTIONS.contains recommendation.recommendation_type
      && !simulated
  let rollback_status : RollbackStatus :=
    if rollback_available then .pending else .not_applicable
  { audit_id := audit_id
    recommendation_id := recommendation.id
    recommendation_type := recommendation.recommendation_type
    bucket := recommendation.bucket
    key := recommendation.key
    risk_level := risk_level
    requires_approval := requires_approval
    status := status
    message := message
    permitted := permitted
    required_permissions := required_permissions
    missing_permissions := missing_permissions
    simulated := simulated
    pre_change_state := pre_change_state
    post_change_state := post_change_state
    rollback_available := rollback_available
    rollback_status := rollback_status }

/-- `_execute_action`: success flag, message, the `extra_state` dict,
and the S3 verbs this action's live branch touches (the trace lists
every verb the branch can reach; the final fallback is unreachable
with four enum members). -/
def executeAction (cloud : CloudEnv) (rec : Recommendation) :
    Bool × String × List (String × String) × List S3Verb :=
  match rec.recommendation_type with
  | .change_storage_class =>
    let target := ((pySplit rec.recommended_action).getLast?).getD ""
    let verbs := [S3Verb.copy_object rec.bucket rec.key target]
    match cloud.error rec with
    | none => (true, s!"Transitioned {pyStr rec.key} to {target}.", [], verbs)
    | some (code, msg) => (false, s!"S3 error ({code}): {msg}", [], verbs)
  | .add_lifecycle_policy =>
    let existing := cloud.existing_rules rec.bucket
    let extra :=
      [("existing_lifecycle_rules",
        match existing with
        | some rules => String.intercalate "," rules
        | none => "None")]
    let verbs :=
      [S3Verb.get_bucket_lifecycle_configuration rec.bucket,
       S3Verb.put_bucket_lifecycle_configuration rec.bucket]
    match cloud.error rec with
    | none => (true, s!"Applied lifecycle policy to {rec.bucket}.", extra, verbs)
    | some (code, msg) => (false, s!"S3 error ({code}): {msg}", extra, verbs)
  | .delete_incomplete_upload =>
    let upload_id := pyOrStr rec.storage_class ""
    let verbs := [S3Verb.abort_multipart_upload rec.bucket rec.key upload_id]
    match cloud.error rec with
    | none => (true, s!"Aborted incomplete upload for {pyStr rec.key}.", [], verbs)
    | some (code, msg) => (false, s!"S3 error ({code}): {msg}", [], verbs)
  | .delete_stale_object =>
    let verbs := [S3Verb.delete_object rec.bucket rec.key]
    match cloud.error rec with
    | none => (true, s!"Deleted stale object {pyStr rec.key}.", [], verbs)
    | some (code, msg) => (false, s!"S3 error ({code}): {msg}", [], verbs)

/-- The mutable loop state of `execute`. -/
structure LoopState where
  eligible : ℕ := 0
  executed : ℕ := 0
  skipped : ℕ := 0
  blocked : ℕ := 0
  failed : ℕ := 0
  action_results : List ExecutionActionResult := []
  verbs : List S3Verb := []
  deriving DecidableEq, Repr

/-- The body of the `for index, recommendation in enumerate(...)` loop
of `execute`: one `if`/`match` per `continue`/fall-through branch. -/
def step (cloud : CloudEnv) (request : ExecuteRequest)
    (scores : List RiskScore) (granted : List String)
    (allow_destructive dry_run : Bool) (effective_mode : ExecutionMode)
    (index : ℕ) (recommendation : Recommendation) (st : LoopState) :
    LoopState :=
      if index ≥ request.max_actions then
        { st with
          skipped := st.skipped + 1
          action_results := st.action_results ++
            [result "" recommendation (scoreById scores recommendation.id)
              .skipped
              s!"Skipped due to max_actions={request.max_actions} limit."
              true [] [] dry_run
              (capturePreChangeState recommendation) none] }
      else
        match scoreById scores recommendation.id with
        | none =>
          { st with
            failed := st.failed + 1
            action_results := st.action_results ++
              [result "" recommendation none .failed
                "Missing risk score for recommendation."
                false [] [] dry_run
                (capturePreChangeState recommendation) none] }
        | some score =>
          if !isModeEligible effective_mode score then
            { st with
              skipped := st.skipped + 1
              action_results := st.action_results ++
                [result "" recommendation (some score) .skipped
                  s!"Skipped by mode {effective_mode.val} risk policy."
                  true [] [] dry_run
                  (capturePreChangeState recommendation) none] }
          else
            let st := { st with eligible := st.eligible + 1 }
            let required_permissions :=
              (REQUIRED_PERMISSIONS recommendation.recommendation_type).getD []
            let missing_permissions :=
              required_permissions.filter (fun p => !granted.contains p)
            if recommendation.recommendation_type = .delete_stale_object
                ∧ ¬ allow_destructive then
              { st with
                blocked := st.blocked + 1
                action_results := st.action_results ++
                  [result "" recommendation (some score) .blocked
                    "Blocked: set ALLOW_DESTRUCTIVE_EXECUTION=true to allow deletes."
                    false required_permissions missing_permissions dry_run
                    (capturePreChangeState recommendation) none] }
            else if missing_permissions ≠ [] then
              { st with
                blocked := st.blocked + 1
                action_results := st.action_results ++
                  [result "" recommendation (some score) .blocked
                    "Blocked: missing required permissions."
                    false required_permissions missing_permissions dry_run
                    (capturePreChangeState recommendation) none] }
            else if dry_run then
              { st with
                executed := st.executed + 1
                action_results := st.action_results ++
                  [result "" recommendation (some score) .dry_run
                    "Dry run: validation passed, action would execute."
                    true required_permissions [] true
                    (capturePreChangeState recommendation)
                    (some (capturePostChangeState recommendation true))] }
            else
              let (success, message, extra_state, verbs) :=
                executeAction cloud recommendation
              let pre_state := capturePreChangeState recommendation ++ extra_state
              if success then
                { st with
                  executed := st.executed + 1
                  action_results := st.action_results ++
                    [result "" recommendation (some score) .executed message
                      true required_permissions [] false pre_state
                      (some (capturePostChangeState recommendation false))]
                  verbs := st.verbs ++ verbs }
              else
                { st with
                  failed := st.failed + 1
                  action_results := st.action_results ++
                    [result "" recommendation (some score) .failed message
                      true required_permissions [] false pre_state none]
                  verbs := st.verbs ++ verbs }

/-- The `for index, recommendation in enumerate(recommendations)` loop
of `execute`. -/
def go (cloud : CloudEnv) (request : ExecuteRequest)
    (scores : List RiskScore) (granted : List String)
    (allow_destructive dry_run : Bool) (effective_mode : ExecutionMode) :
    ℕ → List Recommendation → LoopState → LoopState
  | _, [], st => st
  | index, recommendation :: rest, st =>
    go cloud request scores granted allow_destructive dry_run effective_mode
      (index + 1) rest
      (step cloud request scores granted allow_destructive dry_run
        effective_mode index recommendation st)

/-- `ExecutionService.execute`, returning the response and the trace of
S3 verbs invoked. -/
def execute (cloud : CloudEnv) (osEnv : OsEnv) (request : ExecuteRequest)
    (recommendations : List Recommendation) (scores : List RiskScore)
    (now : ℤ) : ExecuteResponse × List S3Verb :=
  let (effective_mode, dry_run) := resolveMode request
  let granted := grantedPermissions osEnv
  let allow_destructive :=
    parseAllowDestructive (osEnv.allow_destructive_execution.getD "false")
  let st :=
    go cloud request scores granted allow_destructive dry_run effective_mode
      0 recommendations {}
  ({ execution_id := ""
     run_id := request.run_id
     status := .executed
     mode := effective_mode
     dry_run := dry_run
     eligible := st.eligible
     executed := st.executed
     skipped := st.skipped
     blocked := st.blocked
     failed := st.failed
     action_results := st.action_results
     executed_at := now },
   st.verbs)

end ExecutionService

/-! ## Audit and rollback contracts (`src/server/app/models/contracts.py`) -/

/-- `ExecutionAuditRecord` model; it doubles as one row of the
`execution_audit` table (`_row_to_audit_record` is a field-for-field
conversion). -/
structure ExecutionAuditRecord where
  audit_id : String
  execution_id : String
  run_id : String
  recommendation_id : String
  recommendation_type : RecommendationType
  bucket : String
  key : Option String := none
  action_status : ExecutionActionStatus
  message : String
  risk_level : RiskLevel
  requires_approval : Bool
  permitted : Bool
  required_permissions : List String := []
  missing_permissions : List String := []
  simulated : Bool := false
  pre_change_state : List (String × String) := []
  post_change_state : Option (List (String × String)) := none
  rollback_available : Bool := false
  rollback_status : RollbackStatus := .not_applicable
  rolled_back_at : Option ℤ := none
  created_at : ℤ
  deriving DecidableEq, Repr

/-- `RollbackRequest` model; the pydantic field default is
`dry_run : bool = True`. -/
structure RollbackRequest where
  run_id : String
  execution_id : Option String := none
  audit_ids : List String := []
  dry_run : Bool := true
  deriving DecidableEq, Repr

/-- A `RollbackRequest` parsed from a body that omits `dry_run`:
pydantic fills the declared default `True`. -/
def RollbackRequest.withoutDryRun (run_id : String)
    (execution_id : Option String) (audit_ids : List String) :
    RollbackRequest :=
  { run_id := run_id, execution_id := execution_id, audit_ids := audit_ids }

/-- `RollbackActionResult` model. -/
structure RollbackActionResult where
  audit_id : String
  recommendation_id : String
  recommendation_type : RecommendationType
  status : RollbackActionStatus
  message : String
  rolled_back : Bool := false
  deriving DecidableEq, Repr

/-- `RollbackResponse` model. -/
structure RollbackResponse where
  run_id : String
  execution_id : String
  dry_run : Bool
  attempted : ℕ
  rolled_back : ℕ
  skipped : ℕ
  failed : ℕ
  results : List RollbackActionResult := []
  processed_at : ℤ
  deriving DecidableEq, Repr

/-! ## RunStore (`src/server/app/state/store.py`)

Only the audit-side operations claims touch are embedded.  The two
SQLite tables are value lists; of the `runs` columns only the ones
`update_rollback_status` reads or writes are carried (the operation
leaves every other column of both tables unchanged). -/

namespace RunStore

/-- One row of the `runs` table (`run_id PK`, `updated_at`; the
remaining columns are untouched by the embedded operations). -/
structure RunRow where
  run_id : String
  updated_at : ℤ
  deriving DecidableEq, Repr

/-- The persistent store: the `runs` and `execution_audit` tables. -/
structure Db where
  runs : List RunRow := []
  execution_audit : List ExecutionAuditRecord := []
  deriving DecidableEq, Repr

/-- `ORDER BY created_at DESC`. -/
def createdDesc (a b : ExecutionAuditRecord) : Prop :=
  b.created_at ≤ a.created_at

instance : DecidableRel createdDesc := fun a b =>
  inferInstanceAs (Decidable (b.created_at ≤ a.created_at))

instance : IsTotal ExecutionAuditRecord createdDesc :=
  ⟨fun a b => le_total b.created_at a.created_at⟩

instance : IsTrans ExecutionAuditRecord createdDesc :=
  ⟨fun _ _ _ hab hbc => le_trans hbc hab⟩

/-- The `WHERE` clause `list_execution_audit` builds: always filter by
`run_id`; `AND execution_id = ?` only when `execution_id` is truthy
(not `None`, not `""`); `AND audit_id IN (...)` only when `audit_ids`
is truthy (not `None`, not `[]`). -/
def auditRowMatches (run_id : String) (execution_id : Option String)
    (audit_ids : Option (List String)) (r : ExecutionAuditRecord) : Bool :=
  r.run_id == run_id
    && (match execution_id with
        | some e => if e ≠ "" then r.execution_id == e else true
        | none => true)
    && (match audit_ids with
        | some ids => if ids ≠ [] then ids.contains r.audit_id else true
        | none => true)

/-- `list_execution_audit`. -/
def listExecutionAudit (db : Db) (run_id : String)
    (execution_id : Option String := none)
    (audit_ids : Option (List String) := none) :
    List ExecutionAuditRecord :=
  List.insertionSort createdDesc
    (db.execution_audit.filter (auditRowMatches run_id execution_id audit_ids))

/-- `update_rollback_status`.  `now` is the clock read for
`rolled_back_at`, `now₂` the (later) read used to bump the run's
`updated_at`; both `COALESCE`s are explicit matches. -/
def updateRollbackStatus (db : Db) (audit_id : String)
    (rollback_status : RollbackStatus) (message : Option String)
    (now now₂ : ℤ) : Db × Bool :=
  let rolled_back_at : Option ℤ :=
    if rollback_status = .rolled_back then some now else none
  let run_row :=
    (db.execution_audit.find? (·.audit_id == audit_id)).map (·.run_id)
  let rowcount :=
    (db.execution_audit.filter (·.audit_id == audit_id)).length
  let audit' := db.execution_audit.map (fun r =>
    if r.audit_id == audit_id then
      { r with
        rollback_status := rollback_status
        rolled_back_at :=
          match rolled_back_at with
          | some t => some t
          | none => r.rolled_back_at
        message :=
          match message with
          | some m => m
          | none => r.message }
    else r)
  let runs' :=
    if rowcount > 0 then
      match run_row with
      | some rid =>
        db.runs.map (fun run =>
          if run.run_id == rid then { run with updated_at := now₂ } else run)
      | none => db.runs
    else db.runs
  ({ runs := runs', execution_audit := audit' }, decide (rowcount > 0))

end RunStore

/-! ## RollbackService (`src/server/app/executor/rollback.py`)

As for the executor, S3 outcomes are an oracle (`ClientError` code and
message per audit record, if any) and the invoked verbs are traced.
`pre_change_state` reads go through the stringified-dict model: a
missing key or the value `"None"` both model Python `None`. -/

namespace RollbackService

/-- `pre_change_state.get(k)` on the stringified dict (first entry
wins, as for a Python dict built without duplicate keys). -/
def lookupState (pre : List (String × String)) (k : String) :
    Option String :=
  (pre.find? (·.1 == k)).map (·.2)

/-- `REVERSIBLE_ACTIONS` class set. -/
def REVERSIBLE_ACTIONS : List RecommendationType :=
  [.change_storage_class, .add_lifecycle_policy]

/-- `_rollback_eligible`. -/
def rollbackEligible (record : ExecutionAuditRecord) : Bool :=
  if !record.rollback_available then false
  else if record.action_status ≠ .executed then false
  else if !REVERSIBLE_ACTIONS.contains record.recommendation_type then false
  else true

/-- `_rollback_action`: success flag, message and the S3 verbs the
branch invokes; `cloudError` is the oracle for a raised `ClientError`. -/
def rollbackAction (cloudError : ExecutionAuditRecord → Option (String × String))
    (record : ExecutionAuditRecord) : Bool × String × List S3Verb :=
  if record.pre_change_state = [] then
    (false, "Missing pre-change state snapshot.", [])
  else
    let bucket := pyOrStr (lookupState record.pre_change_state "bucket") record.bucket
    let key : Option String :=
      match lookupState record.pre_change_state "key" with
      | some s => if s = "" ∨ s = "None" then record.key else some s
      | none => record.key
    match record.recommendation_type with
    | .change_storage_class =>
      let original_class :=
        pyOrStr (lookupState record.pre_change_state "storage_class") "STANDARD"
      let verbs := [S3Verb.copy_object bucket key original_class]
      (match cloudError record with
       | none => (true, s!"Restored {pyStr key} to {original_class}.", verbs)
       | some (code, msg) => (false, s!"S3 error ({code}): {msg}", verbs))
    | .add_lifecycle_policy =>
      (match lookupState record.pre_change_state "existing_lifecycle_rules" with
       | some s =>
         if s = "None" then
           (match cloudError record with
            | none =>
              (true, s!"Removed lifecycle policy from {bucket}.",
               [S3Verb.delete_bucket_lifecycle bucket])
            | some (code, msg) =>
              (false, s!"S3 error ({code}): {msg}",
               [S3Verb.delete_bucket_lifecycle bucket]))
         else
           (match cloudError record with
            | none =>
              (true, s!"Restored original lifecycle policy on {bucket}.",
               [S3Verb.put_bucket_lifecycle_configuration bucket])
            | some (code, msg) =>
              (false, s!"S3 error ({code}): {msg}",
               [S3Verb.put_bucket_lifecycle_configuration bucket]))
       | none =>
         (match cloudError record with
          | none =>
            (true, s!"Removed lifecycle policy from {bucket}.",
             [S3Verb.delete_bucket_lifecycle bucket])
          | some (code, msg) =>
            (false, s!"S3 error ({code}): {msg}",
             [S3Verb.delete_bucket_lifecycle bucket])))
    | _ => (false, "No rollback handler for recommendation type.", [])

/-- The mutable loop state of `rollback`. -/
structure LoopState where
  attempted : ℕ := 0
  rolled_back : ℕ := 0
  skipped : ℕ := 0
  failed : ℕ := 0
  results : List RollbackActionResult := []
  verbs : List S3Verb := []
  deriving DecidableEq, Repr

/-- The `for record in audit_records` loop of `rollback`. -/
def go (cloudError : ExecutionAuditRecord → Option (String × String))
    (request : RollbackRequest) :
    List ExecutionAuditRecord → LoopState → LoopState
  | [], st => st
  | record :: rest, st =>
    let st := { st with attempted := st.attempted + 1 }
    let st' :=
      if !rollbackEligible record then
        { st with
          skipped := st.skipped + 1
          results := st.results ++
            [{ audit_id := record.audit_id
               recommendation_id := record.recommendation_id
               recommendation_type := record.recommendation_type
               status := .skipped
               message := "Action is not eligible for rollback."
               rolled_back := false }] }
      else if request.dry_run then
        { st with
          results := st.results ++
            [{ audit_id := record.audit_id
               recommendation_id := record.recommendation_id
               recommendation_type := record.recommendation_type
               status := .dry_run
               message := "Dry run: rollback would be attempted."
               rolled_back := false }] }
      else
        let (success, message, verbs) := rollbackAction cloudError record
        if success then
          { st with
            rolled_back := st.rolled_back + 1
            results := st.results ++
              [{ audit_id := record.audit_id
                 recommendation_id := record.recommendation_id
                 recommendation_type := record.recommendation_type
                 status := .rolled_back
                 message := message
                 rolled_back := true }]
            verbs := st.verbs ++ verbs }
        else
          { st with
            failed := st.failed + 1
            results := st.results ++
              [{ audit_id := record.audit_id
                 recommendation_id := record.recommendation_id
                 recommendation_type := record.recommendation_type
                 status := .failed
                 message := message
                 rolled_back := false }]
            verbs := st.verbs ++ verbs }
    go cloudError request rest st'

/-- `RollbackService.rollback`, returning the response and the trace of
S3 verbs invoked. -/
def rollback (cloudError : ExecutionAuditRecord → Option (String × String))
    (request : RollbackRequest) (audit_records : List ExecutionAuditRecord)
    (execution_id : String) (now : ℤ) : RollbackResponse × List S3Verb :=
  let st := go cloudError request audit_records {}
  ({ run_id := request.run_id
     execution_id := execution_id
     dry_run := request.dry_run
     attempted := st.attempted
     rolled_back := st.rolled_back
     skipped := st.skipped
     failed := st.failed
     results := st.results
     processed_at := now },
   st.verbs)

end RollbackService

/-! ## Rollback route glue (`src/server/app/api/routes/optimizer.py`) -/

namespace OptimizerRoutes

/-- `audit_ids=request.audit_ids or None` in the rollback endpoint
(Python `or`: an empty list becomes `None`). -/
def routeAuditIds (request : RollbackRequest) : Option (List String) :=
  if request.audit_ids = [] then none else some request.audit_ids

/-- The post-rollback store writes of the endpoint: none on a dry run,
otherwise one `update_rollback_status` call per ROLLED_BACK or FAILED
result, mapped through `status_map`. -/
def rollbackRouteUpdates (request : RollbackRequest)
    (response : RollbackResponse) :
    List (String × RollbackStatus × String) :=
  if ¬ request.dry_run then
    response.results.filterMap (fun item =>
      match item.status with
      | .rolled_back => some (item.audit_id, RollbackStatus.rolled_back, item.message)
      | .failed => some (item.audit_id, RollbackStatus.failed, item.message)
      | _ => none)
  else []

/-- Folding the endpoint's `update_rollback_status` calls over the
store (each call reads the clock twice; the trace supplies them). -/
def applyRollbackUpdates (db : RunStore.Db)
    (updates : List (String × RollbackStatus × String))
    (now now₂ : ℤ) : RunStore.Db :=
  updates.foldl
    (fun acc u =>
      (RunStore.updateRollbackStatus acc u.1 u.2.1 (some u.2.2) now now₂).1)
    db

end OptimizerRoutes

/-! ## Loop lemmas for `ExecutionService` -/

/-- Each pass through the loop body increments exactly one of the four
outcome counters and appends exactly one action result. -/
lemma exec_step_counts (cloud : ExecutionService.CloudEnv)
    (request : ExecuteRequest) (scores : List RiskScore)
    (granted : List String) (ad dr : Bool) (em : ExecutionMode)
    (index : ℕ) (rec : Recommendation) (st : ExecutionService.LoopState) :
    (ExecutionService.step cloud request scores granted ad dr em index rec st).executed
        + (ExecutionService.step cloud request scores granted ad dr em index rec st).skipped
        + (ExecutionService.step cloud request scores granted ad dr em index rec st).blocked
        + (ExecutionService.step cloud request scores granted ad dr em index rec st).failed
      = st.executed + st.skipped + st.blocked + st.failed + 1
    ∧ (ExecutionService.step cloud request scores granted ad dr em index rec st).action_results.length
      = st.action_results.length + 1 := by
  simp only [ExecutionService.step]
  repeat' split
  all_goals simp [List.length_append]
  all_goals omega

/-- The loop extends the result list by one entry per recommendation. -/
lemma exec_go_length (cloud : ExecutionService.CloudEnv)
    (request : ExecuteRequest) (scores : List RiskScore)
    (granted : List String) (ad dr : Bool) (em : ExecutionMode) :
    ∀ (recs : List Recommendation) (index : ℕ)
      (st : ExecutionService.LoopState),
      (ExecutionService.go cloud request scores granted ad dr em index recs st).action_results.length
        = st.action_results.length + recs.length := by
  intro recs
  induction recs with
  | nil => intro index st; simp [ExecutionService.go]
  | cons rec rest ih =>
    intro index st
    rw [ExecutionService.go, ih]
    have h := exec_step_counts cloud request scores granted ad dr em index rec st
    simp [h.2, List.length_cons]
    omega

/-- The partition invariant of the loop: the four outcome counters sum
to the number of action results. -/
lemma exec_go_partition (cloud : ExecutionService.CloudEnv)
    (request : ExecuteRequest) (scores : List RiskScore)
    (granted : List String) (ad dr : Bool) (em : ExecutionMode) :
    ∀ (recs : List Recommendation) (index : ℕ)
      (st : ExecutionService.LoopState),
      st.executed + st.skipped + st.blocked + st.failed
          = st.action_results.length →
      (ExecutionService.go cloud request scores granted ad dr em index recs st).executed
          + (ExecutionService.go cloud request scores granted ad dr em index recs st).skipped
          + (ExecutionService.go cloud request scores granted ad dr em index recs st).blocked
          + (ExecutionService.go cloud request scores granted ad dr em index recs st).failed
        = (ExecutionService.go cloud request scores granted ad dr em index recs st).action_results.length := by
  intro recs
  induction recs with
  | nil => intro index st h; simpa [ExecutionService.go] using h
  | cons rec rest ih =>
    intro index st h
    rw [ExecutionService.go]
    apply ih
    have hs := exec_step_counts cloud request scores granted ad dr em index rec st
    omega

/-- C1: for every call to `ExecutionService.execute` — any request,
recommendation list, score list, cloud behaviour, environment and
clock — the returned `ExecuteResponse` satisfies
`executed + skipped + blocked + failed = len(action_results)`. -/
theorem execute_counts_partition (cloud : ExecutionService.CloudEnv)
    (osEnv : ExecutionService.OsEnv) (request : ExecuteRequest)
    (recommendations : List Recommendation) (scores : List RiskScore)
    (now : ℤ) :
    (ExecutionService.execute cloud osEnv request recommendations scores now).1.executed
        + (ExecutionService.execute cloud osEnv request recommendations scores now).1.skipped
        + (ExecutionService.execute cloud osEnv request recommendations scores now).1.blocked
        + (ExecutionService.execute cloud osEnv request recommendations scores now).1.failed
      = (ExecutionService.execute cloud osEnv request recommendations scores now).1.action_results.length := by
  unfold ExecutionService.execute
  split
  simpa using
    exec_go_partition cloud request scores
      (ExecutionService.grantedPermissions osEnv)
      (ExecutionService.parseAllowDestructive
        (osEnv.allow_destructive_execution.getD "false"))
      _ _ recommendations 0 {} (by simp)

/-- Fixture for the C3 counterexample: a minimal recommendation with a
given id. -/
def c3Rec (i : String) : Recommendation :=
  { id := i
    bucket := "b"
    key := some "k"
    recommendation_type := .change_storage_class
    risk_level := .low
    reason := "r"
    recommended_action := "Transition to GLACIER_IR"
    estimated_monthly_savings := 0
    size_bytes := 0 }

/-- Fixture for the C3 counterexample: a cloud on which every call
succeeds (no call is ever attempted in the run below). -/
def c3Cloud : ExecutionService.CloudEnv :=
  { error := fun _ => none, existing_rules := fun _ => none }

/-- C3: counterexample. Four recommendations, none of which has a risk
score, are executed; every one of them FAILs, yet the batch runs to
completion: all four appear in `action_results` (the claim's failure
threshold — the legacy executor's `max_failures`, default 3 — would
have stopped after three and left the fourth absent), and
`ExecuteResponse` carries no `errors` list at all. -/
theorem execute_no_failure_threshold_cex :
    (ExecutionService.execute c3Cloud {} { run_id := "run-c3" }
        [c3Rec "r1", c3Rec "r2", c3Rec "r3", c3Rec "r4"] [] 0).1.failed = 4
    ∧ (ExecutionService.execute c3Cloud {} { run_id := "run-c3" }
        [c3Rec "r1", c3Rec "r2", c3Rec "r3", c3Rec "r4"] [] 0).1.action_results.length = 4 := by
  decide

/-- C3 amended: `ExecutionService.execute` keeps no failure threshold:
whatever the number of FAILED actions, every recommendation in the
batch is processed and contributes exactly one entry to
`action_results`. -/
theorem execute_processes_all_recommendations
    (cloud : ExecutionService.CloudEnv) (osEnv : ExecutionService.OsEnv)
    (request : ExecuteRequest) (recommendations : List Recommendation)
    (scores : List RiskScore) (now : ℤ) :
    (ExecutionService.execute cloud osEnv request recommendations scores now).1.action_results.length
      = recommendations.length := by
  unfold ExecutionService.execute
  split
  simpa using
    exec_go_length cloud request scores
      (ExecutionService.grantedPermissions osEnv)
      (ExecutionService.parseAllowDestructive
        (osEnv.allow_destructive_execution.getD "false"))
      _ _ recommendations 0 {}

/-- The audit-row consistency of the rollback fields: availability only
on live EXECUTED reversible actions, and PENDING exactly on available
rows. -/
def rollbackConsistent (r : ExecutionActionResult) : Prop :=
  (r.rollback_available = true →
    r.status = .executed ∧ r.simulated = false
      ∧ (r.recommendation_type = .change_storage_class
          ∨ r.recommendation_type = .add_lifecycle_policy))
  ∧ (r.rollback_status = .pending ↔ r.rollback_available = true)

/-- Every action result built by `ExecutionService._result` has
consistent rollback fields. -/
lemma exec_result_rollback (audit_id : String) (rec : Recommendation)
    (score : Option RiskScore) (status : ExecutionActionStatus)
    (message : String) (permitted : Bool)
    (required_permissions missing_permissions : List String)
    (simulated : Bool) (pre : List (String × String))
    (post : Option (List (String × String))) :
    rollbackConsistent
      (ExecutionService.result audit_id rec score status message permitted
        required_permissions missing_permissions simulated pre post) := by
  rcases hrt : rec.recommendation_type <;>
    rcases status <;> rcases simulated <;>
      simp_all [rollbackConsistent, ExecutionService.result,
        ExecutionService.REVERSIBLE_ACTIONS, List.contains, List.elem] <;>
    rfl

/-- The loop body preserves rollback-field consistency of the
accumulated action results. -/
lemma exec_step_rollback (cloud : ExecutionService.CloudEnv)
    (request : ExecuteRequest) (scores : List RiskScore)
    (granted : List String) (ad dr : Bool) (em : ExecutionMode)
    (index : ℕ) (rec : Recommendation) (st : ExecutionService.LoopState)
    (h : ∀ r ∈ st.action_results, rollbackConsistent r) :
    ∀ r ∈ (ExecutionService.step cloud request scores granted ad dr em
        index rec st).action_results,
      rollbackConsistent r := by
  simp only [ExecutionService.step]
  repeat' split
  all_goals intro r hr
  all_goals rw [List.mem_append] at hr
  all_goals rcases hr with hr | hr
  all_goals first
    | exact h r hr
    | (rw [List.mem_singleton] at hr; subst hr; apply exec_result_rollback)

/-- The loop preserves rollback-field consistency. -/
lemma exec_go_rollback (cloud : ExecutionService.CloudEnv)
    (request : ExecuteRequest) (scores : List RiskScore)
    (granted : List String) (ad dr : Bool) (em : ExecutionMode) :
    ∀ (recs : List Recommendation) (index : ℕ)
      (st : ExecutionService.LoopState),
      (∀ r ∈ st.action_results, rollbackConsistent r) →
      ∀ r ∈ (ExecutionService.go cloud request scores granted ad dr em
          index recs st).action_results,
        rollbackConsistent r := by
  intro recs
  induction recs with
  | nil => intro index st h; simpa [ExecutionService.go] using h
  | cons rec rest ih =>
    intro index st h
    rw [ExecutionService.go]
    exact ih _ _ (exec_step_rollback cloud request scores granted ad dr em
      index rec st h)

/-- C2: every `ExecutionActionResult` produced by
`ExecutionService.execute` satisfies: `rollback_available = true`
implies status EXECUTED, `simulated = false` and a reversible type
(CHANGE_STORAGE_CLASS or ADD_LIFECYCLE_POLICY); and its initial
`rollback_status` is PENDING exactly when `rollback_available` is true,
NOT_APPLICABLE otherwise. -/
theorem execute_rollback_audit_invariant (cloud : ExecutionService.CloudEnv)
    (osEnv : ExecutionService.OsEnv) (request : ExecuteRequest)
    (recommendations : List Recommendation) (scores : List RiskScore)
    (now : ℤ) :
    ∀ r ∈ (ExecutionService.execute cloud osEnv request recommendations
        scores now).1.action_results,
      (r.rollback_available = true →
        r.status = .executed ∧ r.simulated = false
          ∧ (r.recommendation_type = .change_storage_class
              ∨ r.recommendation_type = .add_lifecycle_policy))
      ∧ (r.rollback_status = .pending ↔ r.rollback_available = true) := by
  unfold ExecutionService.execute
  split
  intro r hr
  exact exec_go_rollback cloud request scores
    (ExecutionService.grantedPermissions osEnv)
    (ExecutionService.parseAllowDestructive
      (osEnv.allow_destructive_execution.getD "false"))
    _ _ recommendations 0 {} (by simp) r (by simpa using hr)

/-- Fixture for the C2 witness. -/
def c2Rec : Recommendation :=
  { id := "r1"
    bucket := "b"
    key := some "k"
    recommendation_type := .add_lifecycle_policy
    risk_level := .low
    reason := "r"
    recommended_action := "Add lifecycle rules"
    estimated_monthly_savings := 0
    size_bytes := 0 }

/-- Fixture for the C2 witness: fallback row for `headD`. -/
def c2Fallback : ExecutionActionResult :=
  ExecutionService.result "" c2Rec none .failed "" false [] [] false [] none

/-- Fixture for the C2 witness: the first action result of a concrete
one-action execution. -/
def c2Row : ExecutionActionResult :=
  (ExecutionService.execute c3Cloud {} { run_id := "run-c2" } [c2Rec]
    [] 0).1.action_results.headD c2Fallback

/-- C2 witness: the invariant instantiated on the first action result
of a concrete one-action execution. -/
theorem execute_rollback_audit_invariant_witness :
    (c2Row.rollback_available = true →
      c2Row.status = .executed ∧ c2Row.simulated = false
        ∧ (c2Row.recommendation_type = .change_storage_class
            ∨ c2Row.recommendation_type = .add_lifecycle_policy))
    ∧ (c2Row.rollback_status = .pending
        ↔ c2Row.rollback_available = true) := by
  have hthm := execute_rollback_audit_invariant c3Cloud {}
    { run_id := "run-c2" } [c2Rec] [] 0
  unfold c2Row
  cases hxs : (ExecutionService.execute c3Cloud {} { run_id := "run-c2" }
      [c2Rec] [] 0).1.action_results with
  | nil =>
    simp only [List.headD_nil]
    exact exec_result_rollback "" c2Rec none .failed "" false [] [] false [] none
  | cons a t =>
    simp only [List.headD_cons]
    exact hthm a (by rw [hxs]; exact List.mem_cons_self a t)

/-- `_execute_action` only reaches `delete_object` for
DELETE_STALE_OBJECT recommendations. -/
lemma exec_action_no_delete (cloud : ExecutionService.CloudEnv)
    (rec : Recommendation) (b : String) (k : Option String)
    (h : rec.recommendation_type ≠ .delete_stale_object) :
    S3Verb.delete_object b k ∉ (ExecutionService.executeAction cloud rec).2.2.2 := by
  unfold ExecutionService.executeAction
  rcases hrt : rec.recommendation_type <;>
    rcases herr : cloud.error rec with _ | ⟨c, m⟩ <;>
      simp_all

/-- With the destructive guard off, the loop body never adds a
`delete_object` verb to the trace. -/
lemma exec_step_no_delete (cloud : ExecutionService.CloudEnv)
    (request : ExecuteRequest) (scores : List RiskScore)
    (granted : List String) (dr : Bool) (em : ExecutionMode)
    (index : ℕ) (rec : Recommendation) (st : ExecutionService.LoopState)
    (b : String) (k : Option String)
    (h : S3Verb.delete_object b k ∉ st.verbs) :
    S3Verb.delete_object b k ∉
      (ExecutionService.step cloud request scores granted false dr em
        index rec st).verbs := by
  by_cases hty : rec.recommendation_type = .delete_stale_object
  · -- the destructive guard blocks before any verb is invoked
    simp only [ExecutionService.step]
    repeat' split
    all_goals try exact h
    all_goals simp_all
  · have hva := exec_action_no_delete cloud rec b k hty
    rcases heq : ExecutionService.executeAction cloud rec with ⟨succ, msg, extra, vbs⟩
    rw [heq] at hva
    simp only [ExecutionService.step, heq]
    repeat' split
    all_goals try exact h
    all_goals intro hmem
    all_goals rw [List.mem_append] at hmem
    all_goals rcases hmem with hm | hm
    all_goals first
      | exact h hm
      | exact hva hm

/-- With the destructive guard off, the loop never invokes
`delete_object`. -/
lemma exec_go_no_delete (cloud : ExecutionService.CloudEnv)
    (request : ExecuteRequest) (scores : List RiskScore)
    (granted : List String) (dr : Bool) (em : ExecutionMode) :
    ∀ (recs : List Recommendation) (index : ℕ)
      (st : ExecutionService.LoopState) (b : String) (k : Option String),
      S3Verb.delete_object b k ∉ st.verbs →
      S3Verb.delete_object b k ∉
        (ExecutionService.go cloud request scores granted false dr em
          index recs st).verbs := by
  intro recs
  induction recs with
  | nil => intro index st b k h; simpa [ExecutionService.go] using h
  | cons rec rest ih =>
    intro index st b k h
    rw [ExecutionService.go]
    exact ih _ _ b k (exec_step_no_delete cloud request scores granted dr em
      index rec st b k h)

/-- C6: destructive execution is enabled iff the
`ALLOW_DESTRUCTIVE_EXECUTION` value lower-cased equals the literal
`"true"` (so `"True"` enables and `"1"` does not); and when it is not
enabled, any DELETE_STALE_OBJECT action that reaches the eligibility
gate (within `max_actions`, scored, mode-eligible) is recorded BLOCKED
with the destructive-guard message while its iteration leaves the verb
trace untouched, and the whole execution never invokes the
`delete_object` mutation. -/
theorem allow_destructive_guard :
    ExecutionService.parseAllowDestructive "True" = true
    ∧ ExecutionService.parseAllowDestructive "1" = false
    ∧ (∀ raw : String,
        ExecutionService.parseAllowDestructive raw = true ↔ pyLower raw = "true")
    ∧ (∀ (cloud : ExecutionService.CloudEnv) (request : ExecuteRequest)
        (scores : List RiskScore) (granted : List String) (dr : Bool)
        (em : ExecutionMode) (index : ℕ) (rec : Recommendation)
        (st : ExecutionService.LoopState) (score : RiskScore),
        index < request.max_actions →
        ExecutionService.scoreById scores rec.id = some score →
        ExecutionService.isModeEligible em score = true →
        rec.recommendation_type = .delete_stale_object →
        (ExecutionService.step cloud request scores granted false dr em
            index rec st).action_results
          = st.action_results ++
            [ExecutionService.result "" rec (some score) .blocked
              "Blocked: set ALLOW_DESTRUCTIVE_EXECUTION=true to allow deletes."
              false
              ((ExecutionService.REQUIRED_PERMISSIONS
                  rec.recommendation_type).getD [])
              (((ExecutionService.REQUIRED_PERMISSIONS
                  rec.recommendation_type).getD []).filter
                (fun p => !granted.contains p))
              dr (ExecutionService.capturePreChangeState rec) none]
        ∧ (ExecutionService.step cloud request scores granted false dr em
            index rec st).verbs = st.verbs)
    ∧ (∀ (cloud : ExecutionService.CloudEnv) (osEnv : ExecutionService.OsEnv)
        (request : ExecuteRequest) (recommendations : List Recommendation)
        (scores : List RiskScore) (now : ℤ) (b : String) (k : Option String),
        ExecutionService.parseAllowDestructive
            (osEnv.allow_destructive_execution.getD "false") = false →
        S3Verb.delete_object b k ∉
          (ExecutionService.execute cloud osEnv request recommendations
            scores now).2) := by
  refine ⟨by decide, by decide, ?_, ?_, ?_⟩
  · intro raw
    simp [ExecutionService.parseAllowDestructive]
  · intro cloud request scores granted dr em index rec st score
      hidx hscore heligible hrt
    have hidx' : ¬ index ≥ request.max_actions := by omega
    constructor
    · simp [ExecutionService.step, hidx', hscore, heligible, hrt]
    · simp [ExecutionService.step, hidx', hscore, heligible, hrt]
  · intro cloud osEnv request recommendations scores now b k had
    unfold ExecutionService.execute
    split
    simp only
    rw [had]
    exact exec_go_no_delete cloud request scores
      (ExecutionService.grantedPermissions osEnv) _ _ recommendations 0 {}
      b k (by simp)

/-- Fixture for the C6 witness: a stale-object deletion finding. -/
def c6Rec : Recommendation :=
  { id := "r1"
    bucket := "b"
    key := some "k"
    recommendation_type := .delete_stale_object
    risk_level := .high
    reason := "stale object"
    recommended_action := "Delete stale object"
    estimated_monthly_savings := 0
    size_bytes := 0 }

/-- Fixture for the C6 witness: its risk score. -/
def c6Score : RiskScore :=
  { recommendation_id := "r1"
    risk_score := 80
    confidence_score := 50
    impact_score := 20
    risk_level := .high
    requires_approval := true
    safe_to_automate := false
    execution_recommendation := "Manual review required before execution."
    factors := []
    factor_scores := ⟨0, 100, 35, 15, 35⟩ }

/-- Fixture for the C6 witness: an error-free cloud. -/
def c6Cloud : ExecutionService.CloudEnv :=
  { error := fun _ => none, existing_rules := fun _ => none }

/-- C6 witness: the guard exercised on a concrete FULL-mode live
execution of one DELETE_STALE_OBJECT action with the variable unset. -/
theorem allow_destructive_guard_witness :
    (ExecutionService.parseAllowDestructive "tRuE" = true
      ↔ pyLower "tRuE" = "true")
    ∧ ((ExecutionService.step c6Cloud { run_id := "run-c6" } [c6Score] []
          false false .full 0 c6Rec {}).action_results
        = ExecutionService.LoopState.action_results {} ++
          [ExecutionService.result "" c6Rec (some c6Score) .blocked
            "Blocked: set ALLOW_DESTRUCTIVE_EXECUTION=true to allow deletes."
            false
            ((ExecutionService.REQUIRED_PERMISSIONS
                c6Rec.recommendation_type).getD [])
            (((ExecutionService.REQUIRED_PERMISSIONS
                c6Rec.recommendation_type).getD []).filter
              (fun p => !List.contains [] p))
            false (ExecutionService.capturePreChangeState c6Rec) none]
        ∧ (ExecutionService.step c6Cloud { run_id := "run-c6" } [c6Score] []
            false false .full 0 c6Rec {}).verbs
          = ExecutionService.LoopState.verbs {})
    ∧ S3Verb.delete_object "b" (some "k") ∉
        (ExecutionService.execute c6Cloud {} { run_id := "run-c6" } [c6Rec]
          [c6Score] 0).2 := by
  obtain ⟨-, -, h3, h4, h5⟩ := allow_destructive_guard
  exact ⟨h3 "tRuE",
    h4 c6Cloud { run_id := "run-c6" } [c6Score] [] false .full 0 c6Rec {}
      c6Score (by decide) (by decide) (by decide) rfl,
    h5 c6Cloud {} { run_id := "run-c6" } [c6Rec] [c6Score] 0 "b" (some "k")
      (by decide)⟩

/-- Fixture for C4: a 1 GiB STANDARD cold object, last modified at the
epoch. -/
def c4Rec : Recommendation :=
  { id := "r1"
    bucket := "b"
    key := some "archive/a.dat"
    recommendation_type := .change_storage_class
    risk_level := .medium
    reason := "cold data"
    recommended_action := "Transition to GLACIER_IR"
    estimated_monthly_savings := 19/1000
    size_bytes := 1073741824
    storage_class := some "STANDARD"
    last_modified := some 0 }

/-- C4: counterexample. `_age_confidence` reads `datetime.now()`, so
scoring is not a function of the recommendation inputs alone: the same
recommendation scored at day 364 and at day 365 after its
`last_modified` yields `risk_score` 21 and 18 respectively (the age
factor steps from 80 to 95). -/
theorem score_depends_on_clock_cex :
    (ScoringService.scoreOne c4Rec (364 * 86400)).1.risk_score = 21
    ∧ (ScoringService.scoreOne c4Rec (365 * 86400)).1.risk_score = 18
    ∧ (ScoringService.scoreOne c4Rec (364 * 86400)).1.risk_score
        ≠ (ScoringService.scoreOne c4Rec (365 * 86400)).1.risk_score := by
  have hage1 : ScoringService.ageConfidence c4Rec (364 * 86400) = 80 := by decide
  have hage2 : ScoringService.ageConfidence c4Rec (365 * 86400) = 95 := by decide
  have hsize : ScoringService.sizeImpact c4Rec = 60 := by
    norm_num [ScoringService.sizeImpact, c4Rec]
  have haccess : ScoringService.accessConfidence c4Rec = 60 := by decide
  have hW1 : ScoringService.WEIGHTS "reversibility" = 30 := by decide
  have hW2 : ScoringService.WEIGHTS "data_loss_risk" = 25 := by decide
  have hW3 : ScoringService.WEIGHTS "age_confidence" = 20 := by decide
  have hW4 : ScoringService.WEIGHTS "size_impact" = 15 := by decide
  have hW5 : ScoringService.WEIGHTS "access_confidence" = 10 := by decide
  have hcw1 : ScoringService.calculateWeightedRisk ⟨90, 5, 80, 60, 60⟩ = 21 := by
    simp only [ScoringService.calculateWeightedRisk, hW1, hW2, hW3, hW4, hW5]
    norm_num [pyRound]
  have hcw2 : ScoringService.calculateWeightedRisk ⟨90, 5, 95, 60, 60⟩ = 18 := by
    simp only [ScoringService.calculateWeightedRisk, hW1, hW2, hW3, hW4, hW5]
    norm_num [pyRound]
  have h1 : (ScoringService.scoreOne c4Rec (364 * 86400)).1.risk_score = 21 := by
    have hfs1 : (ScoringService.calculateFactorScores c4Rec (364 * 86400)).1
        = ⟨90, 5, 80, 60, 60⟩ := by
      simp only [ScoringService.calculateFactorScores, hage1, hsize, haccess]
      decide
    rcases hfs : ScoringService.calculateFactorScores c4Rec (364 * 86400)
      with ⟨fs, msgs⟩
    rw [hfs] at hfs1
    simp only at hfs1
    simp only [ScoringService.scoreOne, hfs, hfs1, hcw1]
  have h2 : (ScoringService.scoreOne c4Rec (365 * 86400)).1.risk_score = 18 := by
    have hfs2 : (ScoringService.calculateFactorScores c4Rec (365 * 86400)).1
        = ⟨90, 5, 95, 60, 60⟩ := by
      simp only [ScoringService.calculateFactorScores, hage2, hsize, haccess]
      decide
    rcases hfs : ScoringService.calculateFactorScores c4Rec (365 * 86400)
      with ⟨fs, msgs⟩
    rw [hfs] at hfs2
    simp only at hfs2
    simp only [ScoringService.scoreOne, hfs, hfs2, hcw2]
  exact ⟨h1, h2, by rw [h1, h2]; decide⟩

/-- C4 amended: scoring is pure and deterministic given the
recommendations *and* the clock reading: the clock enters only through
`_age_confidence`, so any two invocations on identical inputs whose
clock readings give each recommendation the same age factor produce
identical scores, savings details and summary. -/
theorem score_deterministic_given_clock :
    (∀ (r : Recommendation) (now now' : ℤ),
      ScoringService.ageConfidence r now = ScoringService.ageConfidence r now' →
      ScoringService.scoreOne r now = ScoringService.scoreOne r now')
    ∧ (∀ (recommendations : List Recommendation) (now now' : ℤ),
      (∀ r ∈ recommendations,
        ScoringService.ageConfidence r now
          = ScoringService.ageConfidence r now') →
      ScoringService.score recommendations now
        = ScoringService.score recommendations now') := by
  have hone : ∀ (r : Recommendation) (now now' : ℤ),
      ScoringService.ageConfidence r now = ScoringService.ageConfidence r now' →
      ScoringService.scoreOne r now = ScoringService.scoreOne r now' := by
    intro r now now' h
    unfold ScoringService.scoreOne ScoringService.calculateFactorScores
    rw [h]
  refine ⟨hone, ?_⟩
  intro recommendations now now' h
  have hmap : recommendations.map (ScoringService.scoreOne · now)
      = recommendations.map (ScoringService.scoreOne · now') :=
    List.map_congr_left (fun r hr => hone r now now' (h r hr))
  unfold ScoringService.score
  rw [hmap]

/-- C4 witness: two different clock readings an hour apart on day 364
leave every scored field identical for the concrete recommendation. -/
theorem score_deterministic_given_clock_witness :
    ScoringService.score [c4Rec] (364 * 86400)
      = ScoringService.score [c4Rec] (364 * 86400 + 3600) := by
  exact score_deterministic_given_clock.2 [c4Rec] (364 * 86400)
    (364 * 86400 + 3600)
    (fun r hr => by
      rw [List.mem_singleton] at hr
      subst hr
      decide)

/-- Fixture for C5: a 100-byte STANDARD object last modified at the
epoch — far below the claimed 1 MB minimum. -/
def c5Obj : ScannerService.S3Object :=
  { key := "k", size := 100, storage_class := "STANDARD", last_modified := 0 }

/-- C5: counterexample. `_scan_objects` has no minimum-object-size
condition: a 100-byte STANDARD object that is 90 days old gets a
CHANGE_STORAGE_CLASS recommendation even though `100 < 1 MB` (the
claimed `min_object_bytes` threshold exists only in the legacy
`src/analyzers/storage_class.py`, not in the scanner the server runs). -/
theorem scan_no_min_size_cex :
    ((ScannerService.objectRecs "b" (90 * 86400) c5Obj).map
        (·.recommendation_type)) = [.change_storage_class]
    ∧ ((ScannerService.objectRecs "b" (90 * 86400) c5Obj).map
        (·.risk_level)) = [.medium]
    ∧ c5Obj.size < 1048576 := by
  refine ⟨by decide, by decide, by decide⟩

/-- C5 amended: the per-object rule of the server scanner emits a
CHANGE_STORAGE_CLASS recommendation (risk MEDIUM, action
"Transition to GLACIER_IR") exactly when the current storage class is
STANDARD and `90 ≤ days_since_modified < 365`, with no minimum-size
condition (at 365 days and beyond the DELETE_STALE_OBJECT rule
supersedes it); in particular 89 days yields none and 90 days yields
one. -/
theorem scan_change_storage_class_iff :
    (∀ (bucket : String) (now : ℤ) (obj : ScannerService.S3Object),
      ((ScannerService.objectRecs bucket now obj).any
          (fun r => r.recommendation_type == .change_storage_class)) = true
        ↔ (obj.storage_class = "STANDARD"
            ∧ ScannerService.COLD_DAYS ≤ Int.fdiv (now - obj.last_modified) 86400
            ∧ Int.fdiv (now - obj.last_modified) 86400 < ScannerService.STALE_DAYS))
    ∧ (∀ (bucket : String) (now : ℤ) (obj : ScannerService.S3Object),
      (((ScannerService.objectRecs bucket now obj).filter
          (fun r => r.recommendation_type == .change_storage_class)).all
        (fun r => r.risk_level == .medium
          && r.recommended_action == "Transition to GLACIER_IR")) = true) := by
  constructor
  · intro bucket now obj
    simp only [ScannerService.objectRecs, ScannerService.COLD_DAYS,
      ScannerService.STALE_DAYS]
    split_ifs with h1 h2
    · simp only [List.any_cons, List.any_nil]
      constructor
      · intro h; simp at h
      · intro h; omega
    · simp only [List.any_cons, List.any_nil]
      constructor
      · intro _; exact ⟨h2.2, h2.1, by omega⟩
      · intro _; rfl
    · simp only [List.any_nil]
      constructor
      · intro h; simp at h
      · intro h
        exact absurd (show Int.fdiv (now - obj.last_modified) 86400 ≥ 90
            ∧ obj.storage_class = "STANDARD" from ⟨h.2.1, h.1⟩) h2
  · intro bucket now obj
    simp only [ScannerService.objectRecs]
    split_ifs with h1 h2
    · simp
    · have hact : ((toString "Transition to " ++ toString ScannerService.TARGET_CLASS
          ++ toString "" : String) == "Transition to GLACIER_IR") = true := by decide
      simp [hact]
    · simp

/-- C5 witness: the boundary instances on the concrete object — 89
days since modification yields no CHANGE_STORAGE_CLASS recommendation,
90 days yields one. -/
theorem scan_change_storage_class_iff_witness :
    ((ScannerService.objectRecs "b" (89 * 86400) c5Obj).any
        (fun r => r.recommendation_type == .change_storage_class)) = false
    ∧ ((ScannerService.objectRecs "b" (90 * 86400) c5Obj).any
        (fun r => r.recommendation_type == .change_storage_class)) = true := by
  obtain ⟨hiff, -⟩ := scan_change_storage_class_iff
  constructor
  · have hnot : ¬ (c5Obj.storage_class = "STANDARD"
        ∧ ScannerService.COLD_DAYS
            ≤ Int.fdiv ((89 : ℤ) * 86400 - c5Obj.last_modified) 86400
        ∧ Int.fdiv ((89 : ℤ) * 86400 - c5Obj.last_modified) 86400
            < ScannerService.STALE_DAYS) := by decide
    cases hb : ((ScannerService.objectRecs "b" (89 * 86400) c5Obj).any
        (fun r => r.recommendation_type == .change_storage_class)) with
    | false => rfl
    | true => exact absurd ((hiff "b" (89 * 86400) c5Obj).mp hb) hnot
  · exact (hiff "b" (90 * 86400) c5Obj).mpr (by decide)

/-- Every per-object recommendation carries the listed object's key. -/
lemma scan_objectRecs_key (bucket : String) (now : ℤ)
    (obj : ScannerService.S3Object) :
    ∀ r ∈ ScannerService.objectRecs bucket now obj, r.key = some obj.key := by
  intro r hr
  simp only [ScannerService.objectRecs] at hr
  split_ifs at hr <;> simp_all

/-- The per-object rules emit nothing or a single recommendation. -/
lemma scan_objectRecs_small (bucket : String) (now : ℤ)
    (obj : ScannerService.S3Object) :
    ScannerService.objectRecs bucket now obj = []
      ∨ ∃ r, ScannerService.objectRecs bucket now obj = [r] := by
  simp only [ScannerService.objectRecs]
  split_ifs <;> simp

/-- C9: each listed object yields at most one per-object
recommendation (the `elif` makes DELETE_STALE_OBJECT suppress
CHANGE_STORAGE_CLASS), so when the listed keys are distinct a single
scan never emits both a DELETE_STALE_OBJECT and a
CHANGE_STORAGE_CLASS recommendation for the same (bucket, key). -/
theorem scan_one_rec_per_object :
    (∀ (bucket : String) (now : ℤ) (obj : ScannerService.S3Object),
      (ScannerService.objectRecs bucket now obj).length ≤ 1)
    ∧ (∀ (bucket : String) (objs : List ScannerService.S3Object)
        (max_objects : ℕ) (now : ℤ) (k : String),
        ((objs.take max_objects).map (·.key)).Nodup →
        ¬ ((∃ r ∈ ScannerService.scanObjects bucket objs max_objects now,
              r.recommendation_type = .delete_stale_object ∧ r.key = some k)
          ∧ (∃ r ∈ ScannerService.scanObjects bucket objs max_objects now,
              r.recommendation_type = .change_storage_class ∧ r.key = some k))) := by
  constructor
  · intro bucket now obj
    rcases scan_objectRecs_small bucket now obj with h | ⟨r, h⟩ <;> simp [h]
  · rintro bucket objs max_objects now k hnodup
      ⟨⟨r1, hr1, ht1, hk1⟩, ⟨r2, hr2, ht2, hk2⟩⟩
    rw [ScannerService.scanObjects, List.mem_flatMap] at hr1 hr2
    obtain ⟨o1, ho1, hro1⟩ := hr1
    obtain ⟨o2, ho2, hro2⟩ := hr2
    have hk1' := scan_objectRecs_key bucket now o1 r1 hro1
    have hk2' := scan_objectRecs_key bucket now o2 r2 hro2
    have h1e : o1.key = k := Option.some.inj (hk1'.symm.trans hk1)
    have h2e : o2.key = k := Option.some.inj (hk2'.symm.trans hk2)
    have hoe : o1 = o2 :=
      List.inj_on_of_nodup_map hnodup ho1 ho2 (h1e.trans h2e.symm)
    subst hoe
    rcases scan_objectRecs_small bucket now o1 with hemp | ⟨r, hsing⟩
    · rw [hemp] at hro1
      exact absurd hro1 (List.not_mem_nil r1)
    · rw [hsing, List.mem_singleton] at hro1 hro2
      subst hro1
      subst hro2
      exact RecommendationType.noConfusion (ht1.symm.trans ht2)

/-- C9 witness: the suppression exercised on a concrete one-object
listing with distinct keys. -/
theorem scan_one_rec_per_object_witness :
    ¬ ((∃ r ∈ ScannerService.scanObjects "b" [c5Obj] 1000 (90 * 86400),
          r.recommendation_type = .delete_stale_object ∧ r.key = some "k")
      ∧ (∃ r ∈ ScannerService.scanObjects "b" [c5Obj] 1000 (90 * 86400),
          r.recommendation_type = .change_storage_class ∧ r.key = some "k")) :=
  scan_one_rec_per_object.2 "b" [c5Obj] 1000 (90 * 86400) "k" (by decide)

/-- C8: `list_execution_audit` with an empty `audit_ids` list behaves
exactly like an omitted one — no audit-id filter — and in that case
returns precisely the rows matching the run (and, when given, the
execution) filter, ordered by `created_at` descending. -/
theorem list_execution_audit_empty_filter :
    (∀ (db : RunStore.Db) (run_id : String) (execution_id : Option String),
      RunStore.listExecutionAudit db run_id execution_id (some [])
        = RunStore.listExecutionAudit db run_id execution_id none)
    ∧ (∀ (db : RunStore.Db) (run_id : String) (execution_id : Option String),
      (RunStore.listExecutionAudit db run_id execution_id none).Perm
          (db.execution_audit.filter
            (RunStore.auditRowMatches run_id execution_id none))
        ∧ (RunStore.listExecutionAudit db run_id execution_id none).Sorted
            RunStore.createdDesc) := by
  constructor
  · intro db run_id execution_id
    unfold RunStore.listExecutionAudit
    have hfun : RunStore.auditRowMatches run_id execution_id (some [])
        = RunStore.auditRowMatches run_id execution_id none := by
      funext r
      simp [RunStore.auditRowMatches]
    rw [hfun]
  · intro db run_id execution_id
    exact ⟨List.perm_insertionSort RunStore.createdDesc _,
      List.sorted_insertionSort RunStore.createdDesc _⟩

/-- C7: `update_rollback_status` returns true iff a row with the given
`audit_id` existed; on each matching row it writes the new status, sets
`rolled_back_at` to the clock iff the new status is ROLLED_BACK
(otherwise preserving it), and keeps the old message when `message` is
null; and when the row exists it bumps the owning run's `updated_at`. -/
theorem update_rollback_status_spec (db : RunStore.Db) (audit_id : String)
    (rollback_status : RollbackStatus) (message : Option String)
    (now now₂ : ℤ) :
    ((RunStore.updateRollbackStatus db audit_id rollback_status message
        now now₂).2 = true
      ↔ ∃ r ∈ db.execution_audit, r.audit_id = audit_id)
    ∧ (RunStore.updateRollbackStatus db audit_id rollback_status message
        now now₂).1.execution_audit
      = db.execution_audit.map (fun r =>
          if r.audit_id == audit_id then
            { r with
              rollback_status := rollback_status
              rolled_back_at :=
                if rollback_status = .rolled_back then some now
                else r.rolled_back_at
              message := message.getD r.message }
          else r)
    ∧ (∀ row, db.execution_audit.find? (·.audit_id == audit_id) = some row →
        (RunStore.updateRollbackStatus db audit_id rollback_status message
            now now₂).1.runs
          = db.runs.map (fun run =>
              if run.run_id == row.run_id then { run with updated_at := now₂ }
              else run)) := by
  refine ⟨?_, ?_, ?_⟩
  · simp only [RunStore.updateRollbackStatus, decide_eq_true_eq, gt_iff_lt,
      List.length_pos_iff_ne_nil, Ne, List.filter_eq_nil_iff]
    push_neg
    simp [beq_iff_eq]
  · simp only [RunStore.updateRollbackStatus]
    apply List.map_congr_left
    intro r _
    cases message <;>
      by_cases hrb : rollback_status = .rolled_back <;>
        by_cases hid : r.audit_id == audit_id <;>
          simp [hrb, hid]
  · intro row hrow
    have hmem := List.mem_of_find?_eq_some hrow
    have hpos : 0 < (db.execution_audit.filter
        (·.audit_id == audit_id)).length := by
      have hp := List.find?_some hrow
      rw [List.length_pos_iff_ne_nil, Ne, List.filter_eq_nil_iff]
      push_neg
      exact ⟨row, hmem, by simpa using hp⟩
    simp [RunStore.updateRollbackStatus, hrow, hpos]

/-- Fixture for the C7 witness: one audit row owned by one run. -/
def c7Row : ExecutionAuditRecord :=
  { audit_id := "a1"
    execution_id := "e1"
    run_id := "run1"
    recommendation_id := "r1"
    recommendation_type := .change_storage_class
    bucket := "b"
    key := some "k"
    action_status := .executed
    message := "Transitioned k to GLACIER_IR."
    risk_level := .low
    requires_approval := false
    permitted := true
    rollback_available := true
    rollback_status := .pending
    created_at := 5 }

/-- Fixture for the C7 witness: the store holding that row. -/
def c7Db : RunStore.Db :=
  { runs := [{ run_id := "run1", updated_at := 0 }]
    execution_audit := [c7Row] }

/-- C7 witness: on a concrete store, updating the existing row to
ROLLED_BACK returns true and bumps the owning run's `updated_at`. -/
theorem update_rollback_status_spec_witness :
    (RunStore.updateRollbackStatus c7Db "a1" .rolled_back none 10 11).2 = true
    ∧ (RunStore.updateRollbackStatus c7Db "a1" .rolled_back none 10 11).1.runs
      = c7Db.runs.map (fun run =>
          if run.run_id == c7Row.run_id then { run with updated_at := 11 }
          else run) := by
  obtain ⟨hret, -, hruns⟩ :=
    update_rollback_status_spec c7Db "a1" .rolled_back none 10 11
  exact ⟨hret.mpr ⟨c7Row, by decide, rfl⟩, hruns c7Row (by decide)⟩

/-- The rollback loop on a dry-run request: each record is attempted,
eligible records produce DRY_RUN results, ineligible ones SKIPPED, and
no S3 verb is ever invoked. -/
lemma rollback_go_dry
    (cloudError : ExecutionAuditRecord → Option (String × String))
    (request : RollbackRequest) (hdr : request.dry_run = true) :
    ∀ (records : List ExecutionAuditRecord)
      (st : RollbackService.LoopState),
      (RollbackService.go cloudError request records st).verbs = st.verbs
      ∧ (RollbackService.go cloudError request records st).results
        = st.results ++ records.map (fun record =>
            if RollbackService.rollbackEligible record then
              { audit_id := record.audit_id
                recommendation_id := record.recommendation_id
                recommendation_type := record.recommendation_type
                status := .dry_run
                message := "Dry run: rollback would be attempted."
                rolled_back := false }
            else
              { audit_id := record.audit_id
                recommendation_id := record.recommendation_id
                recommendation_type := record.recommendation_type
                status := .skipped
                message := "Action is not eligible for rollback."
                rolled_back := false }) := by
  intro records
  induction records with
  | nil => intro st; simp [RollbackService.go]
  | cons record rest ih =>
    intro st
    rw [RollbackService.go]
    by_cases helig : RollbackService.rollbackEligible record
    · simp only [helig, Bool.not_true, Bool.false_eq_true, if_false,
        if_true, hdr, ite_true]
      rw [(ih _).1, (ih _).2]
      simp [helig]
    · simp only [helig, Bool.not_false, if_true, Bool.false_eq_true]
      rw [(ih _).1, (ih _).2]
      simp [helig]

/-- C10: a rollback request that omits `dry_run` defaults to
`dry_run = true`; for every such request the rollback invokes no cloud
mutation verb, every eligible audit record's result has status DRY_RUN
(ineligible ones SKIPPED), the endpoint issues no
`update_rollback_status` calls, and the store is left unchanged. -/
theorem rollback_default_dry_run_frame :
    (∀ (run_id : String) (execution_id : Option String)
      (audit_ids : List String),
      (RollbackRequest.withoutDryRun run_id execution_id audit_ids).dry_run
        = true)
    ∧ (∀ (cloudError : ExecutionAuditRecord → Option (String × String))
        (run_id : String) (execution_id : Option String)
        (audit_ids : List String)
        (records : List ExecutionAuditRecord) (eid : String) (now : ℤ),
        (RollbackService.rollback cloudError
            (RollbackRequest.withoutDryRun run_id execution_id audit_ids)
            records eid now).2 = []
        ∧ (RollbackService.rollback cloudError
            (RollbackRequest.withoutDryRun run_id execution_id audit_ids)
            records eid now).1.results
          = records.map (fun record =>
              if RollbackService.rollbackEligible record then
                { audit_id := record.audit_id
                  recommendation_id := record.recommendation_id
                  recommendation_type := record.recommendation_type
                  status := .dry_run
                  message := "Dry run: rollback would be attempted."
                  rolled_back := false }
              else
                { audit_id := record.audit_id
                  recommendation_id := record.recommendation_id
                  recommendation_type := record.recommendation_type
                  status := .skipped
                  message := "Action is not eligible for rollback."
                  rolled_back := false }))
    ∧ (∀ (request : RollbackRequest) (response : RollbackResponse),
        request.dry_run = true →
        OptimizerRoutes.rollbackRouteUpdates request response = []
        ∧ ∀ (db : RunStore.Db) (now now₂ : ℤ),
          OptimizerRoutes.applyRollbackUpdates db
            (OptimizerRoutes.rollbackRouteUpdates request response) now now₂
            = db) := by
  refine ⟨fun _ _ _ => rfl, ?_, ?_⟩
  · intro cloudError run_id execution_id audit_ids records eid now
    have h := rollback_go_dry cloudError
      (RollbackRequest.withoutDryRun run_id execution_id audit_ids) rfl
      records {}
    exact ⟨by simp [RollbackService.rollback, h.1],
      by simp [RollbackService.rollback, h.2]⟩
  · intro request response hdr
    have hupd : OptimizerRoutes.rollbackRouteUpdates request response = [] := by
      simp [OptimizerRoutes.rollbackRouteUpdates, hdr]
    exact ⟨hupd, fun db now now₂ => by
      simp [hupd, OptimizerRoutes.applyRollbackUpdates]⟩

/-- Fixture for the C10 witness: an executed reversible audit record. -/
def c10Record : ExecutionAuditRecord :=
  { audit_id := "a1"
    execution_id := "e1"
    run_id := "run1"
    recommendation_id := "r1"
    recommendation_type := .change_storage_class
    bucket := "b"
    key := some "k"
    action_status := .executed
    message := "Transitioned k to GLACIER_IR."
    risk_level := .low
    requires_approval := false
    permitted := true
    pre_change_state := [("bucket", "b"), ("key", "k"),
      ("storage_class", "STANDARD")]
    rollback_available := true
    rollback_status := .pending
    created_at := 5 }

/-- C10 witness: the frame property exercised on one concrete
defaulted request, one eligible record, and a concrete store. -/
theorem rollback_default_dry_run_frame_witness :
    (RollbackService.rollback (fun _ => none)
        (RollbackRequest.withoutDryRun "run1" none []) [c10Record] "e1" 0).2
      = []
    ∧ OptimizerRoutes.applyRollbackUpdates c7Db
        (OptimizerRoutes.rollbackRouteUpdates
          (RollbackRequest.withoutDryRun "run1" none [])
          (RollbackService.rollback (fun _ => none)
            (RollbackRequest.withoutDryRun "run1" none [])
            [c10Record] "e1" 0).1) 10 11
      = c7Db := by
  obtain ⟨hdflt, hroll, hroute⟩ := rollback_default_dry_run_frame
  refine ⟨(hroll (fun _ => none) "run1" none [] [c10Record] "e1" 0).1, ?_⟩
  exact (hroute (RollbackRequest.withoutDryRun "run1" none [])
    (RollbackService.rollback (fun _ => none)
      (RollbackRequest.withoutDryRun "run1" none [])
      [c10Record] "e1" 0).1
    (hdflt "run1" none [])).2 c7Db 10 11

example : pyRound (21/2) = 10 := by norm_num [pyRound]
example : pyRound (23/2) = 12 := by norm_num [pyRound]
example : pyRound (2125/100) = 21 := by norm_num [pyRound]
example : pyContains "cold data" "cold" = true := by decide
example : pyContains "fresh" "cold" = false := by decide
example : pyLower "TRue" = "true" := by decide
example : pyStrip "  s3:GetObject " = "s3:GetObject" := by decide
